import Mathlib

/-!
# A verification model of the chat-context core

This file gives a shallow embedding, in Lean 4, of the core of the
chat-context engine: the message parser and rich-text flattener
(`message-parser.ts`), the Claude-format adapter (`format-adapters.ts`),
the Claude workspace extractor (`claude-workspace-extractor.ts`), the
metadata store (`metadata-db.ts`), and the synchronization / facade layer
(`api.ts`).  I/O boundaries (SQLite, the file system, `JSON.parse`,
`Date.parse`, `Date.now`) are modelled by passing the already-loaded /
already-parsed data and the current clock value explicitly.

JavaScript semantics that matter are modelled explicitly:
* truthiness of strings (`""` is falsy) and numbers (`0` is falsy) via
  the `strOrNone` / `orNow` / `natOrNone` helpers;
* `String.prototype.trim` via `jsTrim` (defined on the character list so
  that it evaluates inside the kernel);
* SQLite `LIKE` (ASCII-case-insensitive, `%` and `_` wildcards) via
  `likeMatch`;
* `Array.prototype.sort` with a consistent comparator via Mathlib's
  stable `List.insertionSort` (both produce the unique stable order).

Functions of `workspace-extractor.ts`, whose implementation is not among
the provided sources (only its unit tests and its callers are), are
modelled from the spec; each such definition is marked
`Modelled from the spec:` in its doc comment.
-/

/-! ## JavaScript-flavoured string and truthiness helpers -/

/-- The whitespace characters stripped by `String.prototype.trim`
(restricted to the ASCII range: space, tab, LF, VT, FF, CR). -/
def jsWhitespace (c : Char) : Bool :=
  c = ' ' || c = '\t' || c = '\n' || c = '\x0b' || c = '\x0c' || c = '\r'

/-- `trim` on a character list: drop leading and trailing whitespace. -/
def jsTrimList (cs : List Char) : List Char :=
  ((cs.dropWhile jsWhitespace).reverse.dropWhile jsWhitespace).reverse

/-- JavaScript `s.trim()`. -/
def jsTrim (s : String) : String := ⟨jsTrimList s.data⟩

/-- JavaScript `s.includes(c)` for a single character. -/
def strHasChar (s : String) (c : Char) : Bool := s.data.contains c

/-- JavaScript `s.substring(0, n)` (code-point approximation). -/
def strTake (s : String) (n : Nat) : String := ⟨s.data.take n⟩

/-- JavaScript string truthiness: `s || undefined` / `s || null` turns the
empty string into an absent value. -/
def strOrNone (v : Option String) : Option String :=
  match v with
  | some s => if s = "" then none else some s
  | none => none

/-- JavaScript number truthiness with a default: `v || now` replaces an
absent value and the number `0` by `now` (used for the timestamp columns
of the metadata store). -/
def orNow (v : Option Nat) (now : Nat) : Nat :=
  match v with
  | some n => if n = 0 then now else n
  | none => now

/-- JavaScript `n || undefined`: the number `0` becomes an absent value. -/
def natOrNone (n : Nat) : Option Nat := if n = 0 then none else some n

/-- `Array.prototype.join(sep)`. -/
def joinSep (sep : String) : List String → String
  | [] => ""
  | [x] => x
  | x :: y :: xs => x ++ sep ++ joinSep sep (y :: xs)

/-- `String.prototype.split(c)` on the character list, from the right. -/
def splitCharList (c : Char) : List Char → List (List Char)
  | [] => [[]]
  | x :: xs =>
    let r := splitCharList c xs
    if x = c then [] :: r
    else
      match r with
      | y :: ys => (x :: y) :: ys
      | [] => [[x]]

/-- JavaScript `s.split(c)`. -/
def splitChar (s : String) (c : Char) : List String :=
  (splitCharList c s.data).map (fun cs => ⟨cs⟩)

/-- ASCII lower-casing of one character (the case folding SQLite `LIKE`
applies). -/
def asciiLower (c : Char) : Char :=
  if 'A' ≤ c ∧ c ≤ 'Z' then Char.ofNat (c.toNat + 32) else c

/-- Fuel-driven SQLite `LIKE` matcher: `%` matches any run, `_` any one
character, other characters match ASCII-case-insensitively.  The fuel is
only a structural-recursion device; `likeMatch` supplies enough of it. -/
def likeMatchFuel : Nat → List Char → List Char → Bool
  | 0, _, _ => false
  | _ + 1, [], s => s.isEmpty
  | fuel + 1, p :: ps, s =>
    if p = '%' then
      likeMatchFuel fuel ps s ||
        (match s with
         | [] => false
         | _ :: s' => likeMatchFuel fuel (p :: ps) s')
    else
      match s with
      | [] => false
      | c :: s' =>
        if p = '_' then likeMatchFuel fuel ps s'
        else asciiLower p = asciiLower c && likeMatchFuel fuel ps s'

/-- SQLite `str LIKE pattern` (default, ASCII-case-insensitive). -/
def likeMatch (pattern : List Char) (s : List Char) : Bool :=
  likeMatchFuel (2 * pattern.length + 2 * s.length + 2) pattern s

/-! ## A model of parsed JSON values

`JSON.parse` results are passed around already parsed; a field of type
`Option (Option Json)` reads: outer `none` = the string was absent (or
empty, hence falsy), `some none` = present but not valid JSON,
`some (some j)` = parsed to `j`. -/

inductive Json where
  | null : Json
  | bool (b : Bool) : Json
  | num (n : Int) : Json
  | str (s : String) : Json
  | arr (elems : List Json) : Json
  | obj (fields : List (String × Json)) : Json

/-- Property lookup `j[k]` on a parsed JSON value: only objects have
string-keyed properties (array index strings are never used as keys by
the modelled code paths). -/
def jsGetField (j : Json) (k : String) : Option Json :=
  match j with
  | Json.obj fields => (fields.find? (fun p => p.1 = k)).map (fun p => p.2)
  | _ => none

/-- `typeof v === 'object' && v` (truthy object): arrays and plain objects
pass, `null` is falsy. -/
def isTruthyObject (j : Json) : Bool :=
  match j with
  | Json.obj _ => true
  | Json.arr _ => true
  | _ => false

/-- JavaScript truthiness of a parsed JSON value. -/
def jsJsonTruthy (j : Json) : Bool :=
  match j with
  | Json.null => false
  | Json.bool b => b
  | Json.num n => n ≠ 0
  | Json.str s => s ≠ ""
  | Json.arr _ => true
  | Json.obj _ => true

/-! ## Message parser (`message-parser.ts`)

The Lexical rich-text tree.  In the source, `children` may be absent or
an empty array; both behave identically in `extractTextFromNode` (an
absent array is never traversed, an empty one is traversed vacuously),
so `children` is modelled as a plain list. -/

structure LexicalNode where
  ty : String
  text : Option String
  language : Option String
  children : List LexicalNode

mutual

/-- `extractTextFromNode` of `message-parser.ts`, faithfully including the
unconditional `if (node.text)` push that precedes the type dispatch. -/
def extractTextFromNode (n : LexicalNode) : String :=
  match n with
  | ⟨ty, text, language, children⟩ =>
    -- if (node.text) parts.push(node.text)  -- "" is falsy
    let parts0 : List String :=
      match text with
      | some t => if t = "" then [] else [t]
      | none => []
    let parts1 : List String :=
      if ty = "code" then
        let codeContent := joinSep "" (extractTextFromNodeList children)
        let lang :=
          match language with
          | some l => l  -- `node.language || ''`: "" stays ""
          | none => ""
        parts0 ++ ["\n```" ++ lang ++ "\n" ++ codeContent ++ "\n```\n"]
      else if ty = "code-highlight" then
        parts0 ++ ["`" ++ (match text with | some t => t | none => "") ++ "`"]
      else
        parts0 ++ extractTextFromNodeList children
    let parts2 : List String :=
      if ty = "paragraph" ∧ parts1.length > 0 then parts1 ++ ["\n"] else parts1
    joinSep "" parts2

/-- The recursive traversal of a child list. -/
def extractTextFromNodeList : List LexicalNode → List String
  | [] => []
  | c :: cs => extractTextFromNode c :: extractTextFromNodeList cs

end

/-- `parseLexicalText`: the `richText` JSON string is modelled already
parsed; `none` stands for a JSON parse failure or a document without a
`root` node, which both yield the empty string. -/
def parseLexicalText (parsedRoot : Option LexicalNode) : String :=
  match parsedRoot with
  | none => ""
  | some root => extractTextFromNode root

/-- `toolFormerData` of a bubble.  `params` and `result` are JSON strings
in the source; here they carry their parse outcome (see `Json`). -/
structure ToolFormerData where
  name : Option String
  tool : Option Nat
  params : Option (Option Json)
  result : Option (Option Json)

/-- The unified `ToolInfo` record. -/
structure ToolInfo where
  name : String
  params : Option Json := none
  result : Option Json := none
  workspacePath : Option String := none

/-- `parseToolData` of `message-parser.ts` (the caller guarantees the
argument is present).  `Object.keys` order on a parsed JSON object is
field order (the workspace keys are paths, never integer-like). -/
def parseToolData (td : ToolFormerData) : ToolInfo :=
  -- toolData.name || (toolData.tool ? `tool_${toolData.tool}` : 'unknown_tool')
  let fallbackName : String :=
    match td.tool with
    | some t => if t = 0 then "unknown_tool" else "tool_" ++ toString t
    | none => "unknown_tool"
  let toolName : String :=
    match td.name with
    | some n => if n = "" then fallbackName else n
    | none => fallbackName
  let params : Option Json :=
    match td.params with
    | some (some j) => some j
    | _ => none
  let result : Option Json :=
    match td.result with
    | some (some j) => some j
    | _ => none
  let workspacePath : Option String :=
    match result with
    | some (Json.obj fields) =>
      (match jsGetField (Json.obj fields) "success" with
       | some success =>
         if isTruthyObject success then
           (match jsGetField success "workspaceResults" with
            | some (Json.obj wfields) =>
              (wfields.head?).map (fun p : String × Json => p.1)
            | some (Json.arr ws) => if ws.isEmpty then none else some "0"
            | _ => none)
         else none
       | none => none)
    | _ => none
  { name := toolName, params := params, result := result,
    workspacePath := workspacePath }

/-- Message roles (closed enumeration). -/
inductive Role where
  | user : Role
  | assistant : Role
  | tool : Role
deriving DecidableEq

/-- The unified message record (`ParsedMessage`). -/
structure ParsedMessage where
  role : Role
  content : String
  bubbleId : String
  timestamp : Option String
  toolData : Option ToolInfo := none

/-- A Source-A bubble.  `richText` is a JSON string in the source;
`none` models an absent (or empty, hence falsy) string, `some none` a
present string that fails to parse or lacks a root, `some (some root)` a
parsed document. -/
structure BubbleData where
  type : Nat
  bubbleId : String
  text : Option String := none
  richText : Option (Option LexicalNode) := none
  createdAt : Option String := none
  toolFormerData : Option ToolFormerData := none

/-- `parseBubble` of `message-parser.ts`. -/
def parseBubble (bubble : BubbleData) (excludeTools : Bool := false) :
    ParsedMessage :=
  let role : Role :=
    if bubble.type = 1 then Role.user
    else if bubble.type = 2 then Role.assistant
    else Role.tool
  let content : String :=
    if bubble.type = 1 then
      match bubble.richText with
      | some parsed => parseLexicalText parsed
      | none => match bubble.text with | some t => t | none => ""
    else if bubble.type = 2 then
      match bubble.text with | some t => t | none => ""
    else ""
  let toolData : Option ToolInfo :=
    match bubble.toolFormerData with
    | some td => if excludeTools then none else some (parseToolData td)
    | none => none
  { role := role, content := jsTrim content, bubbleId := bubble.bubbleId,
    timestamp := bubble.createdAt, toolData := toolData }

/-- Options for parsing messages (`ParseOptions`): `maxContentLength`
models the JS number-or-undefined field (`0` is falsy, hence `none`). -/
structure ParseOptions where
  excludeTools : Bool := false
  maxContentLength : Option Nat := none

/-- `parseBubbles` of `message-parser.ts`. -/
def parseBubbles (bubbles : List BubbleData)
    (options : ParseOptions := {}) : List ParsedMessage :=
  let messages := bubbles.map (fun b => parseBubble b options.excludeTools)
  match options.maxContentLength with
  | some maxLen =>
    if maxLen = 0 then messages
    else
      messages.map (fun m =>
        if m.content.data.length > maxLen
        then { m with content := strTake m.content maxLen ++ "..." }
        else m)
  | none => messages

/-! ## Claude Code messages (`claude-code-db.ts` data shapes) -/

/-- One entry of a structured `message.content` array. -/
structure ClaudeContentBlock where
  ty : String
  text : Option String := none
  name : Option String := none
  input : Option Json := none

/-- `message.content`: either a plain string or a block list. -/
inductive ClaudeContent where
  | str (s : String) : ClaudeContent
  | blocks (bs : List ClaudeContentBlock) : ClaudeContent

/-- One line of a session's JSONL file, already parsed.  `timestamp` is
the raw ISO string; `timestampMs` is its `new Date(...).getTime()` value
(the `Date` parse boundary). -/
structure ClaudeCodeMessage where
  ty : String
  uuid : String
  timestamp : String
  timestampMs : Nat
  cwd : String
  sessionId : String
  content : ClaudeContent

/-- Option-string truthiness as a Bool (`c.text && ...`). -/
def truthyStr (o : Option String) : Bool :=
  match o with
  | some s => s ≠ ""
  | none => false

/-- The user-message text extraction of `claudeToUnified`: a plain string
is taken as-is; a block list contributes its truthy text blocks joined
with newlines. -/
def claudeUserText (c : ClaudeContent) : String :=
  match c with
  | ClaudeContent.str s => s
  | ClaudeContent.blocks bs =>
    joinSep "\n"
      ((bs.filter (fun b => b.ty = "text" && truthyStr b.text)).map
        (fun b => match b.text with | some t => t | none => ""))

/-- The assistant-message accumulation loop of `claudeToUnified`:
text blocks are appended (newline-separated once content is nonempty),
and every named `tool_use` block overwrites `toolData` (the last wins).
`item.input || {}` replaces an absent or falsy input by the empty
object. -/
def claudeAsstStep (acc : String × Option ToolInfo)
    (item : ClaudeContentBlock) : String × Option ToolInfo :=
  let content :=
    if item.ty = "text" ∧ truthyStr item.text then
      (if acc.1 = "" then acc.1 else acc.1 ++ "\n") ++
        (match item.text with | some t => t | none => "")
    else acc.1
  let toolData :=
    if item.ty = "tool_use" ∧ truthyStr item.name then
      some { name := (match item.name with | some n => n | none => ""),
             params := some
               (match item.input with
                | some j => if jsJsonTruthy j then j else Json.obj []
                | none => Json.obj []),
             result := none, workspacePath := none }
    else acc.2
  (content, toolData)

/-- The assistant-message loop over the content blocks. -/
def claudeAsstFold (bs : List ClaudeContentBlock) : String × Option ToolInfo :=
  bs.foldl claudeAsstStep ("", none)

/-- The per-message part of `claudeToUnified`: at most one unified message
is emitted per source message (`none` = omitted). -/
def claudeConvertOne (msg : ClaudeCodeMessage) : Option ParsedMessage :=
  if msg.ty = "user" then
    let content := claudeUserText msg.content
    if jsTrim content ≠ "" then
      some { role := Role.user, content := content, bubbleId := msg.uuid,
             timestamp := some msg.timestamp, toolData := none }
    else none
  else if msg.ty = "assistant" then
    let res :=
      match msg.content with
      | ClaudeContent.str s => (s, (none : Option ToolInfo))
      | ClaudeContent.blocks bs => claudeAsstFold bs
    some { role := if res.2.isSome then Role.tool else Role.assistant,
           content := jsTrim res.1, bubbleId := msg.uuid,
           timestamp := some msg.timestamp, toolData := res.2 }
  else none

/-- `claudeToUnified` of `format-adapters.ts`, written as the source's
accumulation loop over the message array. -/
def claudeToUnified (messages : List ClaudeCodeMessage) : List ParsedMessage :=
  messages.foldl
    (fun unified msg =>
      match claudeConvertOne msg with
      | some m => unified ++ [m]
      | none => unified)
    []

/-! ## Claude workspace extractor (`claude-workspace-extractor.ts`) -/

/-- `extractAllWorkspacePathsFromClaudeMessages`: the distinct truthy
`cwd` values in first-occurrence order (`Set` insertion order). -/
def extractAllWorkspacePathsFromClaudeMessages
    (messages : List ClaudeCodeMessage) : List String :=
  messages.foldl
    (fun paths msg =>
      if msg.cwd ≠ "" ∧ ¬ paths.contains msg.cwd then paths ++ [msg.cwd]
      else paths)
    []

/-- `extractNicknameFromClaudeMessages`: the first
`nickname_current_session` tool call carrying a truthy string nickname. -/
def extractNicknameFromClaudeMessages
    (messages : List ClaudeCodeMessage) : Option String :=
  messages.findSome? (fun msg =>
    match msg.content with
    | ClaudeContent.blocks bs =>
      if msg.ty = "assistant" then
        bs.findSome? (fun c =>
          if c.ty = "tool_use" then
            let toolName := match c.name with | some n => n | none => ""
            if toolName = "mcp__cursor-context__nickname_current_session" ∨
               toolName = "nickname_current_session" then
              match c.input with
              | some j =>
                if isTruthyObject j then
                  match jsGetField j "nickname" with
                  | some (Json.str n) => if n ≠ "" then some n else none
                  | _ => none
                else none
              | none => none
            else none
          else none)
      else none
    | ClaudeContent.str _ => none)

/-- `getProjectNameFromPath`: final path segment after stripping trailing
`/` or `\` separators; empty results yield the sentinel. -/
def getProjectNameFromPath (workspacePath : String) : String :=
  if workspacePath = "" then "unknown"
  else
    let cleaned :=
      (workspacePath.data.reverse.dropWhile
        (fun c => c = '/' ∨ c = '\\')).reverse
    if cleaned.isEmpty then "unknown"
    else
      let sep := if cleaned.contains '\\' then '\\' else '/'
      let parts := splitCharList sep cleaned
      match parts.getLast? with
      | some lastPart => if lastPart.isEmpty then "unknown" else ⟨lastPart⟩
      | none => "unknown"

/-- The workspace summary for a Claude session. -/
structure ClaudeWorkspaceInfo where
  primaryPath : Option String
  projectName : Option String
  allPaths : List String
  hasProject : Bool
  isMultiWorkspace : Bool
  nickname : Option String

/-- `getClaudeWorkspaceInfo` of `claude-workspace-extractor.ts`. -/
def getClaudeWorkspaceInfo (messages : List ClaudeCodeMessage) :
    ClaudeWorkspaceInfo :=
  let allPaths := extractAllWorkspacePathsFromClaudeMessages messages
  let primaryPath := strOrNone allPaths.head?
  { primaryPath := primaryPath,
    projectName :=
      match primaryPath with
      | some p => some (getProjectNameFromPath p)
      | none => none,
    allPaths := allPaths,
    hasProject := allPaths.length > 0,
    isMultiWorkspace := allPaths.length > 1,
    nickname := extractNicknameFromClaudeMessages messages }

/-! ## Metadata store (`metadata-db.ts`)

The `session_metadata` table is modelled as a list of rows in rowid
order; `session_id` is the primary key.  The `tags` column holds a JSON
array encoded from a string list (the encoding is injective, so the
column is modelled by the list itself); the `source` column is written
only by its SQL default and never read back through `rowToMetadata`, so
it is omitted. -/

structure MetaRow where
  session_id : String
  nickname : Option String
  tags : Option (List String)
  project_path : Option String
  project_name : Option String
  has_project : Bool
  created_at : Nat
  last_accessed : Nat
  last_synced_at : Nat
  first_message_preview : Option String
  message_count : Nat
deriving DecidableEq

/-- The in-memory `SessionMetadata` object (all fields optional except
the id, as in `types.ts`). -/
structure SMeta where
  session_id : String
  nickname : Option String := none
  tags : Option (List String) := none
  project_path : Option String := none
  project_name : Option String := none
  has_project : Bool := false
  created_at : Option Nat := none
  last_accessed : Option Nat := none
  last_synced_at : Option Nat := none
  first_message_preview : Option String := none
  message_count : Option Nat := none
deriving DecidableEq

/-- The metadata store state: the table rows in rowid order. -/
abbrev MetaState := List MetaRow

/-- `SELECT * FROM session_metadata WHERE session_id = ?` (first match). -/
def lookupRow (st : MetaState) (sessionId : String) : Option MetaRow :=
  st.find? (fun r => r.session_id = sessionId)

/-- The bound-parameter conversion of `upsertSessionMetadata.stmt.run`:
falsy strings become NULL, falsy timestamps become `Date.now()`, a falsy
message count becomes `0`. -/
def metaToRow (m : SMeta) (now : Nat) : MetaRow :=
  { session_id := m.session_id,
    nickname := strOrNone m.nickname,
    tags := m.tags,
    project_path := strOrNone m.project_path,
    project_name := strOrNone m.project_name,
    has_project := m.has_project,
    created_at := orNow m.created_at now,
    last_accessed := orNow m.last_accessed now,
    last_synced_at := orNow m.last_synced_at now,
    first_message_preview := strOrNone m.first_message_preview,
    message_count := match m.message_count with | some n => n | none => 0 }

/-- `INSERT ... ON CONFLICT(session_id) DO UPDATE`: a conflicting row is
updated in place (`created_at` is absent from the update list, so it is
preserved); otherwise the row is appended. -/
def upsertList : MetaState → MetaRow → MetaState
  | [], newRow => [newRow]
  | r :: rs, newRow =>
    if r.session_id = newRow.session_id then
      { newRow with created_at := r.created_at } :: rs
    else r :: upsertList rs newRow

/-- `upsertSessionMetadata`. -/
def upsertSessionMetadata (st : MetaState) (m : SMeta) (now : Nat) :
    MetaState :=
  upsertList st (metaToRow m now)

/-- `rowToMetadata`: NULL and falsy column values become absent fields
(`row.created_at || undefined` etc.). -/
def rowToMetadata (r : MetaRow) : SMeta :=
  { session_id := r.session_id,
    nickname := strOrNone r.nickname,
    tags := r.tags,
    project_path := strOrNone r.project_path,
    project_name := strOrNone r.project_name,
    has_project := r.has_project,
    created_at := natOrNone r.created_at,
    last_accessed := natOrNone r.last_accessed,
    last_synced_at := natOrNone r.last_synced_at,
    first_message_preview := strOrNone r.first_message_preview,
    message_count := natOrNone r.message_count }

/-- `getSessionMetadata`. -/
def getSessionMetadata (st : MetaState) (sessionId : String) : Option SMeta :=
  (lookupRow st sessionId).map rowToMetadata

/-- `getSessionByNickname` (`WHERE nickname = ?`; NULL never matches). -/
def getSessionByNickname (st : MetaState) (nickname : String) : Option SMeta :=
  (st.find? (fun r => r.nickname = some nickname)).map rowToMetadata

/-- The typed failures surfaced by the modelled operations. -/
inductive CCtxError where
  | sessionNotFound (sessionId : String) : CCtxError
  | nicknameConflict (nickname : String) (holder : String) : CCtxError
  | ambiguousIdPrefixMatch (given : String) (matchCount : Nat) : CCtxError
  | existsInBothSources (sessionId : String) : CCtxError
deriving DecidableEq

/-- `setNickname` of `metadata-db.ts`: the uniqueness check precedes any
write; `UPDATE` with zero changed rows falls back to a minimal upsert. -/
def setNickname (st : MetaState) (sessionId nickname : String) (now : Nat) :
    Except CCtxError MetaState :=
  match getSessionByNickname st nickname with
  | some existing =>
    if existing.session_id ≠ sessionId then
      Except.error (CCtxError.nicknameConflict nickname existing.session_id)
    else
      Except.ok (setNicknameWrite st sessionId nickname now)
  | none => Except.ok (setNicknameWrite st sessionId nickname now)
where
  /-- The write half of `setNickname`: `UPDATE session_metadata SET
  nickname = ? WHERE session_id = ?`, falling back to an upsert when no
  row changed. -/
  setNicknameWrite (st : MetaState) (sessionId nickname : String)
      (now : Nat) : MetaState :=
    if (lookupRow st sessionId).isSome then
      st.map (fun r =>
        if r.session_id = sessionId then { r with nickname := some nickname }
        else r)
    else
      upsertSessionMetadata st
        { session_id := sessionId, nickname := some nickname,
          has_project := false } now

/-- `findSessionByIdPrefix`: `WHERE session_id LIKE '<given>%'`; zero
matches yield `none`, several matches raise the ambiguity failure. -/
def findSessionByIdPrefix (st : MetaState) (given : String) :
    Except CCtxError (Option SMeta) :=
  let rows := st.filter
    (fun r => likeMatch (given.data ++ ['%']) r.session_id.data)
  match rows with
  | [] => Except.ok none
  | [r] => Except.ok (some (rowToMetadata r))
  | _ =>
    Except.error (CCtxError.ambiguousIdPrefixMatch given rows.length)

/-- `addTag` of `metadata-db.ts` (idempotent, creates the record when
absent). -/
def addTag (st : MetaState) (sessionId tag : String) (now : Nat) :
    MetaState :=
  match getSessionMetadata st sessionId with
  | none =>
    upsertSessionMetadata st
      { session_id := sessionId, tags := some [tag], has_project := false }
      now
  | some metadata =>
    let tags := match metadata.tags with | some ts => ts | none => []
    if tags.contains tag then st
    else
      upsertSessionMetadata st { metadata with tags := some (tags ++ [tag]) }
        now

/-! ## Source Reader A (`cursor-db.ts`)

The two on-disk generations are resolved by the reader; the model holds
the resolved session records and the bubble key-value entries.  Load
failures (`DBLockedError`, `DataCorruptionError`) behave, for the
synchronization paths verified here, exactly like an absent record,
because `syncCursorSession` catches every error and returns `null`. -/

/-- One conversation header entry (`fullConversationHeadersOnly` /
`conversation`). -/
structure BubbleHeader where
  bubbleId : String
deriving DecidableEq

/-- A resolved composer (session) record.  `createdAt` carries the
`Date.parse` value of the stored ISO string (`none` = field absent or
falsy).  `workspaceFolder` models the session-level path field consulted
by `extractWorkspaceFromComposerData` (spec §4.4's fallback). -/
structure ComposerData where
  composerId : String
  createdAt : Option Nat := none
  fullConversationHeadersOnly : Option (List BubbleHeader) := none
  conversation : Option (List BubbleHeader) := none
  workspaceFolder : Option String := none

/-- The Source-A store: resolved composer records plus the per-bubble
key-value rows, keyed by `(composerId, bubbleId)`. -/
structure CursorSource where
  composers : List ComposerData
  bubbles : List ((String × String) × BubbleData)

/-- `getComposerData` (both generations resolved to one lookup). -/
def getComposerData (src : CursorSource) (composerId : String) :
    Option ComposerData :=
  src.composers.find? (fun c => c.composerId = composerId)

/-- `getBubbleData`. -/
def getBubbleData (src : CursorSource) (composerId bubbleId : String) :
    Option BubbleData :=
  (src.bubbles.find? (fun p => p.1 = (composerId, bubbleId))).map
    (fun p => p.2)

/-- The header list used by `getSessionBubbles`:
`fullConversationHeadersOnly || conversation || []` (a present empty
array is truthy and is chosen). -/
def bubbleHeaders (cd : ComposerData) : List BubbleHeader :=
  match cd.fullConversationHeadersOnly with
  | some hs => hs
  | none =>
    match cd.conversation with
    | some hs => hs
    | none => []

/-- `getSessionBubbles` (after the composer record has been found):
fetch each header's bubble, keeping those present. -/
def getSessionBubbles (src : CursorSource) (composerId : String)
    (cd : ComposerData) : List BubbleData :=
  (bubbleHeaders cd).filterMap
    (fun h => getBubbleData src composerId h.bubbleId)

/-! ## Workspace extractor for Source A

`workspace-extractor.ts` is not among the provided sources (only its
unit tests and its callers are); the definitions below are modelled from
the spec, consistently with those tests. -/

/-- Modelled from the spec: §4.3 — a tool-result payload, when parseable,
is scanned for the nested `success.workspaceResults` map, and the first
key found is the invocation's recovered workspace path
(`workspace-extractor.ts`'s `parseToolResult`; the same extraction the
message parser performs in `parseToolData`). -/
def parseToolResult (bubble : BubbleData) : Option String :=
  match bubble.toolFormerData with
  | some td => (parseToolData td).workspacePath
  | none => none

/-- Modelled from the spec: §4.4 — scan messages in order for the first
tool invocation carrying a recovered path
(`workspace-extractor.ts`'s `extractWorkspacePath`). -/
def extractWorkspacePath (bubbles : List BubbleData) : Option String :=
  bubbles.findSome? parseToolResult

/-- Modelled from the spec: §4.4 — collect all distinct recovered paths
(`workspace-extractor.ts`'s `extractAllWorkspacePaths`). -/
def extractAllWorkspacePaths (bubbles : List BubbleData) : List String :=
  (bubbles.filterMap parseToolResult).foldl
    (fun paths p => if paths.contains p then paths else paths ++ [p]) []

/-- The workspace summary for a Source-A session.  The unit tests show no
nickname field for this source, so `nickname` is always absent. -/
structure WorkspaceInfo where
  primaryPath : Option String
  projectName : Option String
  allPaths : List String
  hasProject : Bool
  isMultiWorkspace : Bool
  nickname : Option String

/-- Modelled from the spec: §4.4 — the workspace summary
(`workspace-extractor.ts`'s `getWorkspaceInfo`). -/
def getWorkspaceInfo (bubbles : List BubbleData) : WorkspaceInfo :=
  let primaryPath := extractWorkspacePath bubbles
  let allPaths := extractAllWorkspacePaths bubbles
  { primaryPath := primaryPath,
    projectName :=
      match primaryPath with
      | some p => some (getProjectNameFromPath p)
      | none => none,
    allPaths := allPaths,
    hasProject := primaryPath.isSome,
    isMultiWorkspace := allPaths.length > 1,
    nickname := none }

/-- Modelled from the spec: §4.4 — the fallback to session-level path
fields supplied directly by the source
(`workspace-extractor.ts`'s `extractWorkspaceFromComposerData`). -/
def extractWorkspaceFromComposerData (cd : ComposerData) : Option String :=
  cd.workspaceFolder

/-- Modelled from the spec: §4.6 (5) — a session with exactly zero
messages; a Source-A session's messages are its conversation headers
(`workspace-extractor.ts`'s `isEmptySession`). -/
def isEmptySession (cd : ComposerData) : Bool :=
  (bubbleHeaders cd).isEmpty

/-- Modelled from the spec: §4.4 — project-name derivation: final
non-empty segment after stripping trailing separators, sentinel
`"unknown"` otherwise (`workspace-extractor.ts`'s `getProjectName`; the
same computation as `getProjectNameFromPath`). -/
def getProjectName (workspacePath : String) : String :=
  getProjectNameFromPath workspacePath

/-! ## Source Reader B store (`claude-code-db.ts`) -/

/-- The Claude store: per-session JSONL message lists (already parsed;
malformed lines are skipped by the reader). -/
structure ClaudeSource where
  sessions : List (String × List ClaudeCodeMessage)

/-- `getSessionMessages`: an absent session file yields the empty list. -/
def claudeGetSessionMessages (src : ClaudeSource) (sessionId : String) :
    List ClaudeCodeMessage :=
  match src.sessions.find? (fun p => p.1 = sessionId) with
  | some p => p.2
  | none => []

/-! ## Synchronization Engine (`api.ts`) -/

/-- The pure computation inside `syncCursorSession` (`api.ts`): `none`
models every `return null` path — absent composer record, empty session,
or a caught per-session load failure.  On success it builds the fresh
`SessionMetadata` with `last_synced_at = now`. -/
def importCursorSession (src : CursorSource) (sessionId : String)
    (now : Nat) : Option SMeta :=
  match getComposerData src sessionId with
  | none => none
  | some composerData =>
    if isEmptySession composerData then none
    else
      let bubbles := getSessionBubbles src sessionId composerData
      let messages := parseBubbles bubbles
      let workspaceInfo := getWorkspaceInfo bubbles
      -- workspaceInfo.primaryPath || undefined, falling back to
      -- extractWorkspaceFromComposerData(composerData) || undefined
      let workspacePath :=
        match strOrNone workspaceInfo.primaryPath with
        | some p => some p
        | none => strOrNone (extractWorkspaceFromComposerData composerData)
      let firstUserMsg :=
        match messages.find? (fun m => m.role = Role.user) with
        | some m => m.content
        | none => ""
      some
        { session_id := "cursor:" ++ sessionId,
          nickname := strOrNone workspaceInfo.nickname,
          project_path := workspacePath,
          project_name :=
            match workspacePath with
            | some p => some (getProjectName p)
            | none => none,
          has_project := workspacePath.isSome,
          first_message_preview := some (strTake firstUserMsg 200),
          message_count := some messages.length,
          created_at := composerData.createdAt,
          last_synced_at := some now }

/-- `syncCursorSession`: perform the import against the metadata store
(`upsertSessionMetadata`), returning the new state and the sync result. -/
def syncCursorSession (src : CursorSource) (sessionId : String) (now : Nat)
    (st : MetaState) : MetaState × Option SMeta :=
  match importCursorSession src sessionId now with
  | none => (st, none)
  | some m => (upsertSessionMetadata st m now, some m)

/-- The pure computation inside `syncClaudeSession` (`api.ts`): `none`
models the `return null` paths — no messages, or a caught failure. -/
def importClaudeSession (src : ClaudeSource) (sessionId : String)
    (now : Nat) : Option SMeta :=
  let messages := claudeGetSessionMessages src sessionId
  if messages.isEmpty then none
  else
    let workspaceInfo := getClaudeWorkspaceInfo messages
    let unified := claudeToUnified messages
    let firstUserMsg :=
      match unified.find? (fun m => m.role = Role.user) with
      | some m => m.content
      | none => ""
    -- messages[0]?.timestamp ? new Date(...).getTime() : undefined
    let createdAt :=
      match messages.head? with
      | some m => if m.timestamp = "" then none else some m.timestampMs
      | none => none
    some
      { session_id := "claude:" ++ sessionId,
        nickname := strOrNone workspaceInfo.nickname,
        project_path := strOrNone workspaceInfo.primaryPath,
        project_name :=
          match strOrNone workspaceInfo.primaryPath with
          | some p => some (getProjectName p)
          | none => none,
        has_project := (strOrNone workspaceInfo.primaryPath).isSome,
        first_message_preview := some (strTake firstUserMsg 200),
        message_count := some unified.length,
        created_at := createdAt,
        last_synced_at := some now }

/-- `syncClaudeSession`. -/
def syncClaudeSession (src : ClaudeSource) (sessionId : String) (now : Nat)
    (st : MetaState) : MetaState × Option SMeta :=
  match importClaudeSession src sessionId now with
  | none => (st, none)
  | some m => (upsertSessionMetadata st m now, some m)

/-- The per-session staleness test of the bulk loops:
`!existing || !existing.last_synced_at || sourceTs > existing.last_synced_at`. -/
def needsSync (st : MetaState) (prefixedId : String) (sourceTs : Nat) :
    Bool :=
  match getSessionMetadata st prefixedId with
  | none => true
  | some existing =>
    match existing.last_synced_at with
    | none => true
    | some lastSyncedAt => sourceTs > lastSyncedAt

/-- One iteration of the `syncCursorSessions` loop. -/
def cursorSyncStep (src : CursorSource) (now : Nat)
    (acc : MetaState × Nat) (entry : String × Nat) : MetaState × Nat :=
  let (sessionId, lastUpdatedAt) := entry
  if needsSync acc.1 ("cursor:" ++ sessionId) lastUpdatedAt then
    match syncCursorSession src sessionId now acc.1 with
    | (st', some _) => (st', acc.2 + 1)
    | (st', none) => (st', acc.2)
  else acc

/-- `syncCursorSessions` (`api.ts`): iterate the bulk timestamp map (the
entries of `getAllSessionTimestamps`, already capped by the caller's
limit), re-importing stale or unknown sessions and counting successes. -/
def syncCursorSessions (src : CursorSource)
    (timestamps : List (String × Nat)) (now : Nat) (st : MetaState) :
    MetaState × Nat :=
  timestamps.foldl (cursorSyncStep src now) (st, 0)

/-- One iteration of the `syncClaudeSessions` loop. -/
def claudeSyncStep (src : ClaudeSource) (now : Nat)
    (acc : MetaState × Nat) (entry : String × Nat) : MetaState × Nat :=
  let (sessionId, lastAccessedAt) := entry
  if needsSync acc.1 ("claude:" ++ sessionId) lastAccessedAt then
    match syncClaudeSession src sessionId now acc.1 with
    | (st', some _) => (st', acc.2 + 1)
    | (st', none) => (st', acc.2)
  else acc

/-- `syncClaudeSessions` (`api.ts`). -/
def syncClaudeSessions (src : ClaudeSource)
    (timestamps : List (String × Nat)) (now : Nat) (st : MetaState) :
    MetaState × Nat :=
  timestamps.foldl (claudeSyncStep src now) (st, 0)

/-! ## Facade API mutations (`api.ts`: `setNickname`, `addTag`) -/

/-- The continuation of the facade `setNickname` once the session id has
been resolved to a source and composite id: auto-sync the session when no
metadata exists yet, then set the nickname in the metadata store. -/
def apiSetNicknameResolved (csrc : CursorSource) (clsrc : ClaudeSource)
    (autoSync : Bool) (now : Nat) (st : MetaState)
    (source rawId prefixedId nickname : String) :
    Except CCtxError MetaState :=
  let st1 :=
    if autoSync ∧ (getSessionMetadata st prefixedId).isNone then
      if source = "cursor" then (syncCursorSession csrc rawId now st).1
      else (syncClaudeSession clsrc rawId now st).1
    else st
  setNickname st1 prefixedId nickname now

/-- The facade `setNickname` (`api.ts`): a composite id is split at the
colon; a bare id is probed against both sources, failing distinctly when
both or neither recognize it. -/
def apiSetNickname (csrc : CursorSource) (clsrc : ClaudeSource)
    (autoSync : Bool) (now : Nat) (st : MetaState)
    (sessionId nickname : String) : Except CCtxError MetaState :=
  if strHasChar sessionId ':' then
    let parts := splitChar sessionId ':'
    let source := match parts.head? with | some s => s | none => ""
    let rawId := match parts[1]? with | some s => s | none => ""
    apiSetNicknameResolved csrc clsrc autoSync now st source rawId
      sessionId nickname
  else
    let cursorData := getComposerData csrc sessionId
    let claudeMessages := claudeGetSessionMessages clsrc sessionId
    if cursorData.isSome ∧ claudeMessages.length = 0 then
      apiSetNicknameResolved csrc clsrc autoSync now st "cursor" sessionId
        ("cursor:" ++ sessionId) nickname
    else if claudeMessages.length > 0 ∧ cursorData.isNone then
      apiSetNicknameResolved csrc clsrc autoSync now st "claude" sessionId
        ("claude:" ++ sessionId) nickname
    else if cursorData.isSome ∧ claudeMessages.length > 0 then
      Except.error (CCtxError.existsInBothSources sessionId)
    else
      Except.error (CCtxError.sessionNotFound sessionId)

/-- The continuation of the facade `addTag` once the session id has been
resolved (same auto-sync shape as `apiSetNicknameResolved`). -/
def apiAddTagResolved (csrc : CursorSource) (clsrc : ClaudeSource)
    (autoSync : Bool) (now : Nat) (st : MetaState)
    (source rawId prefixedId tag : String) : Except CCtxError MetaState :=
  let st1 :=
    if autoSync ∧ (getSessionMetadata st prefixedId).isNone then
      if source = "cursor" then (syncCursorSession csrc rawId now st).1
      else (syncClaudeSession clsrc rawId now st).1
    else st
  Except.ok (addTag st1 prefixedId tag now)

/-- The facade `addTag` (`api.ts`), with the same two-probe bare-id
resolution as the facade `setNickname`. -/
def apiAddTag (csrc : CursorSource) (clsrc : ClaudeSource)
    (autoSync : Bool) (now : Nat) (st : MetaState)
    (sessionId tag : String) : Except CCtxError MetaState :=
  if strHasChar sessionId ':' then
    let parts := splitChar sessionId ':'
    let source := match parts.head? with | some s => s | none => ""
    let rawId := match parts[1]? with | some s => s | none => ""
    apiAddTagResolved csrc clsrc autoSync now st source rawId sessionId tag
  else
    let cursorData := getComposerData csrc sessionId
    let claudeMessages := claudeGetSessionMessages clsrc sessionId
    if cursorData.isSome ∧ claudeMessages.length = 0 then
      apiAddTagResolved csrc clsrc autoSync now st "cursor" sessionId
        ("cursor:" ++ sessionId) tag
    else if claudeMessages.length > 0 ∧ cursorData.isNone then
      apiAddTagResolved csrc clsrc autoSync now st "claude" sessionId
        ("claude:" ++ sessionId) tag
    else if cursorData.isSome ∧ claudeMessages.length > 0 then
      Except.error (CCtxError.existsInBothSources sessionId)
    else
      Except.error (CCtxError.sessionNotFound sessionId)

/-! ## Facade list sorting (`api.ts`: `sortAndLimit`) -/

/-- Sort orders of the list operation. -/
inductive SortBy where
  | newest : SortBy
  | oldest : SortBy
  | most_messages : SortBy
deriving DecidableEq

/-- Falsiness of an optional timestamp (`!a.created_at`: absent or 0). -/
def tsFalsy (o : Option Nat) : Bool :=
  match o with
  | none => true
  | some n => n = 0

/-- The `'newest'` comparator of `sortAndLimit`. -/
def cmpNewest (a b : SMeta) : Int :=
  if tsFalsy a.created_at && tsFalsy b.created_at then 0
  else if tsFalsy a.created_at then 1
  else if tsFalsy b.created_at then -1
  else ((b.created_at.getD 0 : Nat) : Int) - ((a.created_at.getD 0 : Nat) : Int)

/-- The `'oldest'` comparator of `sortAndLimit`. -/
def cmpOldest (a b : SMeta) : Int :=
  if tsFalsy a.created_at && tsFalsy b.created_at then 0
  else if tsFalsy a.created_at then 1
  else if tsFalsy b.created_at then -1
  else ((a.created_at.getD 0 : Nat) : Int) - ((b.created_at.getD 0 : Nat) : Int)

/-- The `'most_messages'` comparator (`a.message_count || 0`). -/
def cmpMostMessages (a b : SMeta) : Int :=
  ((b.message_count.getD 0 : Nat) : Int) - ((a.message_count.getD 0 : Nat) : Int)

/-- `sortAndLimit` (`api.ts`): `Array.prototype.sort` with a consistent
comparator produces the unique stable order, modelled by the stable
`List.insertionSort` on `comparator ≤ 0`; `limit ? slice : all` (`0` is
falsy). -/
def sortAndLimit (sessions : List SMeta) (sortBy : SortBy)
    (limit : Option Nat) : List SMeta :=
  let sorted :=
    match sortBy with
    | SortBy.newest => sessions.insertionSort (fun a b => cmpNewest a b ≤ 0)
    | SortBy.oldest => sessions.insertionSort (fun a b => cmpOldest a b ≤ 0)
    | SortBy.most_messages =>
      sessions.insertionSort (fun a b => cmpMostMessages a b ≤ 0)
  match limit with
  | some l => if l = 0 then sorted else sorted.take l
  | none => sorted

/-! ## Helper lemmas -/

lemma head?_dropWhile_not (p : α → Bool) (l : List α) :
    ∀ x, (l.dropWhile p).head? = some x → p x = false := by
  induction l with
  | nil => intro x h; simp [List.dropWhile] at h
  | cons a as ih =>
    intro x h
    rw [List.dropWhile_cons] at h
    by_cases ha : p a
    · exact ih x (by simpa [ha] using h)
    · rw [if_neg ha] at h
      simp only [List.head?_cons, Option.some.injEq] at h
      subst h
      simpa using ha

lemma getLast?_dropWhile (p : α → Bool) (l : List α)
    (h : l.dropWhile p ≠ []) : (l.dropWhile p).getLast? = l.getLast? := by
  induction l with
  | nil => simp at h
  | cons a as ih =>
    rw [List.dropWhile_cons] at h ⊢
    by_cases ha : p a
    · rw [if_pos ha] at h ⊢
      have has : as ≠ [] := by
        intro e
        subst e
        simp [List.dropWhile] at h
      rw [ih h]
      rcases e : as.getLast? with _ | x
      · exact absurd (List.getLast?_eq_none_iff.mp e) has
      · rw [List.getLast?_cons, e]
        rfl
    · rw [if_neg ha]

lemma jsTrim_head_not_ws (s : String) (c : Char)
    (h : (jsTrim s).data.head? = some c) : jsWhitespace c = false := by
  have hd : (jsTrim s).data = jsTrimList s.data := rfl
  rw [hd] at h
  unfold jsTrimList at h
  rw [List.head?_reverse] at h
  by_cases hne :
      ((s.data.dropWhile jsWhitespace).reverse.dropWhile jsWhitespace) = []
  · rw [hne] at h
    simp at h
  · rw [getLast?_dropWhile _ _ hne, List.getLast?_reverse] at h
    exact head?_dropWhile_not _ _ c h

lemma jsTrim_getLast_not_ws (s : String) (c : Char)
    (h : (jsTrim s).data.getLast? = some c) : jsWhitespace c = false := by
  have hd : (jsTrim s).data = jsTrimList s.data := rfl
  rw [hd] at h
  unfold jsTrimList at h
  rw [List.getLast?_reverse] at h
  exact head?_dropWhile_not _ _ c h

/-! ## Claim theorems: message parser -/

/-- C9.  `parseBubble` maps bubble type 1 to role `user` and type 2 to
role `assistant`; every other type value yields role `tool` with empty
content, and only the optional tool-invocation record may be attached
(present exactly when `toolFormerData` is present and tools are not
excluded).  The returned content never carries leading or trailing
whitespace. -/
theorem parseBubble_role_content_trimmed (b : BubbleData) (et : Bool) :
    (b.type = 1 → (parseBubble b et).role = Role.user) ∧
    (b.type = 2 → (parseBubble b et).role = Role.assistant) ∧
    (b.type ≠ 1 → b.type ≠ 2 →
      (parseBubble b et).role = Role.tool ∧ (parseBubble b et).content = "") ∧
    ((parseBubble b et).toolData =
      match b.toolFormerData with
      | some td => if et then none else some (parseToolData td)
      | none => none) ∧
    (∀ c, ((parseBubble b et).content.data.head? = some c →
        jsWhitespace c = false) ∧
      ((parseBubble b et).content.data.getLast? = some c →
        jsWhitespace c = false)) := by
  refine ⟨?_, ?_, ?_, ?_, ?_⟩
  · intro h1
    simp [parseBubble, h1]
  · intro h2
    have h1 : b.type ≠ 1 := by omega
    simp [parseBubble, h2, h1]
  · intro h1 h2
    constructor
    · simp only [parseBubble, if_neg h1, if_neg h2]
    · show jsTrim
        (if b.type = 1 then _ else if b.type = 2 then _ else "") = ""
      rw [if_neg h1, if_neg h2]
      rfl
  · simp only [parseBubble]
  · intro c
    exact ⟨jsTrim_head_not_ws _ c, jsTrim_getLast_not_ws _ c⟩

/-- Witness for `parseBubble_role_content_trimmed` at concrete bubbles
of types 1, 2 and 9. -/
theorem parseBubble_role_content_trimmed_witness :
    (parseBubble { type := 1, bubbleId := "b1", text := some " hi " }
        false).role = Role.user ∧
    (parseBubble { type := 2, bubbleId := "b2", text := some "ok" }
        false).role = Role.assistant ∧
    ((parseBubble { type := 9, bubbleId := "b3", text := some "zz" }
        false).role = Role.tool ∧
      (parseBubble { type := 9, bubbleId := "b3", text := some "zz" }
        false).content = "") :=
  ⟨(parseBubble_role_content_trimmed
      { type := 1, bubbleId := "b1", text := some " hi " } false).1 rfl,
   (parseBubble_role_content_trimmed
      { type := 2, bubbleId := "b2", text := some "ok" } false).2.1 rfl,
   (parseBubble_role_content_trimmed
      { type := 9, bubbleId := "b3", text := some "zz" } false).2.2.1
     (by decide) (by decide)⟩

/-- C7 (code bug).  Flattening an inline-code node that carries text
`t` emits `t` twice: the unconditional `if (node.text)` push fires before
the `code-highlight` branch adds the backtick-wrapped copy, so the
output is `t` followed by `` `t` `` — an extra unwrapped copy, contrary
to the spec's "an inline-code node wraps in single backticks". -/
theorem extractTextFromNode_inlineCode_duplicates_text :
    extractTextFromNode
        { ty := "code-highlight", text := some "x=1", language := none,
          children := [] } = "x=1`x=1`" ∧
    parseLexicalText
        (some { ty := "root", text := none, language := none,
                children := [{ ty := "code-highlight", text := some "x=1",
                               language := none, children := [] }] }) =
      "x=1`x=1`" := by
  exact ⟨rfl, rfl⟩

/-! ## Claim theorems: Claude format adapter -/

/-- Whether a content block is a `tool_use` block with a truthy tool
name (the condition under which `claudeToUnified` records tool data). -/
def namedToolUseBlock (b : ClaudeContentBlock) : Bool :=
  decide (b.ty = "tool_use") && truthyStr b.name

/-- Whether a content value carries a named `tool_use` block (the
condition under which `claudeToUnified` reports role `tool`). -/
def hasNamedToolUse (c : ClaudeContent) : Bool :=
  match c with
  | ClaudeContent.str _ => false
  | ClaudeContent.blocks bs => bs.any namedToolUseBlock

lemma claudeAsstFold_toolData_isSome (bs : List ClaudeContentBlock) :
    ∀ acc : String × Option ToolInfo,
      ((bs.foldl claudeAsstStep acc).2).isSome =
        (acc.2.isSome || bs.any namedToolUseBlock) := by
  induction bs with
  | nil => intro acc; simp
  | cons b bs ih =>
    intro acc
    rw [List.foldl_cons, List.any_cons, ih]
    by_cases hb : b.ty = "tool_use" ∧ truthyStr b.name = true
    · have hb' : namedToolUseBlock b = true := by
        simp [namedToolUseBlock, hb.1, hb.2]
      simp [claudeAsstStep, hb, hb']
    · have hb' : namedToolUseBlock b = false := by
        rw [namedToolUseBlock]
        simp only [Bool.and_eq_false_iff, decide_eq_false_iff_not]
        by_cases h1 : b.ty = "tool_use"
        · refine Or.inr ?_
          rcases Bool.eq_false_or_eq_true (truthyStr b.name) with h | h
          · exact absurd ⟨h1, h⟩ hb
          · exact h
        · exact Or.inl h1
      simp [claudeAsstStep, hb, hb']

lemma claudeToUnified_foldl_append (msgs : List ClaudeCodeMessage) :
    ∀ acc : List ParsedMessage,
      msgs.foldl
        (fun unified msg =>
          match claudeConvertOne msg with
          | some m => unified ++ [m]
          | none => unified) acc =
      acc ++ msgs.filterMap claudeConvertOne := by
  induction msgs with
  | nil => intro acc; simp
  | cons msg msgs ih =>
    intro acc
    rw [List.foldl_cons, List.filterMap_cons]
    cases h : claudeConvertOne msg with
    | none => rw [ih]
    | some m => rw [ih]; simp

/-- C10 counterexample.  An assistant message whose content holds a
`tool_use` block with no tool name is emitted with role `assistant`,
not `tool`, although a tool_use block is present. -/
theorem claudeToUnified_namelessToolUse_isAssistant :
    (claudeToUnified
        [{ ty := "assistant", uuid := "u1", timestamp := "t1",
           timestampMs := 1, cwd := "", sessionId := "s1",
           content := ClaudeContent.blocks
             [{ ty := "tool_use", name := none }] }]).map
        (fun m => m.role) = [Role.assistant] ∧
    ([({ ty := "tool_use", name := none } : ClaudeContentBlock)].any
      (fun b => decide (b.ty = "tool_use"))) = true := by
  exact ⟨rfl, rfl⟩

/-- C10 (amended).  `claudeToUnified` is the in-order `filterMap` of a
per-message conversion: it preserves the relative order of the emitted
messages; a user message is omitted exactly when its extracted text is
empty or whitespace-only; an assistant message is always emitted, with
role `tool` exactly when a `tool_use` block carrying a truthy tool name
is present (a nameless `tool_use` block does not set the tool role);
consequently the normalized count can be strictly smaller than the
source count. -/
theorem claudeToUnified_order_omission_roles
    (msgs : List ClaudeCodeMessage) :
    claudeToUnified msgs = msgs.filterMap claudeConvertOne ∧
    (∀ m : ClaudeCodeMessage, m.ty = "user" →
      (claudeConvertOne m = none ↔ jsTrim (claudeUserText m.content) = "")) ∧
    (∀ m : ClaudeCodeMessage, m.ty = "assistant" →
      ∃ pm, claudeConvertOne m = some pm ∧
        (pm.role = Role.tool ↔ hasNamedToolUse m.content = true)) ∧
    (∃ ms : List ClaudeCodeMessage,
      (claudeToUnified ms).length < ms.length) := by
  refine ⟨claudeToUnified_foldl_append msgs [], ?_, ?_, ?_⟩
  · intro m hm
    unfold claudeConvertOne
    rw [if_pos hm]
    by_cases h : jsTrim (claudeUserText m.content) = ""
    · simp [h]
    · simp [h]
  · intro m hm
    have hm1 : m.ty ≠ "user" := by rw [hm]; decide
    unfold claudeConvertOne
    rw [if_neg hm1, if_pos hm]
    refine ⟨_, rfl, ?_⟩
    rcases m.content with s | bs
    · simp [hasNamedToolUse]
    · have h2 := claudeAsstFold_toolData_isSome bs ("", none)
      simp only [Option.isSome_none, Bool.false_or] at h2
      rcases Bool.eq_false_or_eq_true (bs.any namedToolUseBlock) with hb | hb <;>
        simp [hasNamedToolUse, claudeAsstFold, h2, hb]
  · refine ⟨[{ ty := "user", uuid := "u0", timestamp := "t0",
               timestampMs := 1, cwd := "", sessionId := "s0",
               content := ClaudeContent.str "  " }], ?_⟩
    decide

/-- Witness for `claudeToUnified_order_omission_roles` at a concrete
message list: a whitespace-only user message and an assistant message
with a named `tool_use` block. -/
theorem claudeToUnified_order_omission_roles_witness :
    (claudeConvertOne
        { ty := "user", uuid := "u0", timestamp := "t0", timestampMs := 1,
          cwd := "", sessionId := "s0",
          content := ClaudeContent.str " " } = none ↔
      jsTrim (claudeUserText (ClaudeContent.str " ")) = "") ∧
    (∃ pm, claudeConvertOne
        { ty := "assistant", uuid := "u1", timestamp := "t1",
          timestampMs := 2, cwd := "", sessionId := "s0",
          content := ClaudeContent.blocks
            [{ ty := "tool_use", name := some "grep" }] } = some pm ∧
      (pm.role = Role.tool ↔ hasNamedToolUse
        (ClaudeContent.blocks [{ ty := "tool_use", name := some "grep" }]) =
          true)) :=
  ⟨(claudeToUnified_order_omission_roles []).2.1
      { ty := "user", uuid := "u0", timestamp := "t0", timestampMs := 1,
        cwd := "", sessionId := "s0",
        content := ClaudeContent.str " " } rfl,
   (claudeToUnified_order_omission_roles []).2.2.1
      { ty := "assistant", uuid := "u1", timestamp := "t1",
        timestampMs := 2, cwd := "", sessionId := "s0",
        content := ClaudeContent.blocks
          [{ ty := "tool_use", name := some "grep" }] } rfl⟩

/-! ## Claim theorems: metadata store lookups -/

/-- A concrete stored row for the lookup examples. -/
def mkRow (sid : String) : MetaRow :=
  { session_id := sid, nickname := none, tags := none, project_path := none,
    project_name := none, has_project := false, created_at := 1,
    last_accessed := 1, last_synced_at := 1, first_message_preview := none,
    message_count := 1 }

/-- C5 counterexample.  The lookup is implemented with SQL `LIKE`, which
is ASCII-case-insensitive: with stored ids `"abc111"` and `"ABC111"`,
exactly one record's id starts with the prefix `"abc1"`, yet the lookup
does not return it — it fails as ambiguous because `LIKE` also matches
the other record. -/
theorem findSessionByIdPrefix_not_startsWith :
    ((([mkRow "abc111", mkRow "ABC111"] : MetaState).filter
        (fun r => "abc1".data.isPrefixOf r.session_id.data)).length = 1) ∧
    findSessionByIdPrefix [mkRow "abc111", mkRow "ABC111"] "abc1" =
      Except.error (CCtxError.ambiguousIdPrefixMatch "abc1" 2) := by
  exact ⟨by decide, rfl⟩

/-- C5 (amended).  `findSessionByIdPrefix` returns the unique record
whose id `LIKE`-matches `<prefix>%` (SQLite `LIKE`: ASCII-case-
insensitive, with `%`/`_` wildcards) when exactly one such record
exists; it raises the distinct ambiguity failure — never a guess — when
two or more records match; and it reports not-found (`none`) when no
record matches. -/
theorem findSessionByIdPrefix_resolution (st : MetaState) (given : String) :
    (st.filter (fun r => likeMatch (given.data ++ ['%']) r.session_id.data)
        = [] →
      findSessionByIdPrefix st given = Except.ok none) ∧
    (∀ r, st.filter
        (fun r => likeMatch (given.data ++ ['%']) r.session_id.data) = [r] →
      findSessionByIdPrefix st given = Except.ok (some (rowToMetadata r))) ∧
    (∀ r1 r2 rest, st.filter
        (fun r => likeMatch (given.data ++ ['%']) r.session_id.data) =
          r1 :: r2 :: rest →
      findSessionByIdPrefix st given =
        Except.error
          (CCtxError.ambiguousIdPrefixMatch given (rest.length + 2))) := by
  refine ⟨?_, ?_, ?_⟩
  · intro h
    unfold findSessionByIdPrefix
    rw [h]
  · intro r h
    unfold findSessionByIdPrefix
    rw [h]
  · intro r1 r2 rest h
    unfold findSessionByIdPrefix
    rw [h]
    simp

/-- Witness for `findSessionByIdPrefix_resolution`: the spec's own
example — ids `"abc111"` and `"abc222"`; prefix `"abc"` is ambiguous,
prefix `"abc1"` resolves to `"abc111"`, and prefix `"zzz"` is
not-found. -/
theorem findSessionByIdPrefix_resolution_witness :
    findSessionByIdPrefix [mkRow "abc111", mkRow "abc222"] "abc" =
      Except.error (CCtxError.ambiguousIdPrefixMatch "abc" 2) ∧
    findSessionByIdPrefix [mkRow "abc111", mkRow "abc222"] "abc1" =
      Except.ok (some (rowToMetadata (mkRow "abc111"))) ∧
    findSessionByIdPrefix [mkRow "abc111", mkRow "abc222"] "zzz" =
      Except.ok none :=
  ⟨(findSessionByIdPrefix_resolution [mkRow "abc111", mkRow "abc222"]
      "abc").2.2 (mkRow "abc111") (mkRow "abc222") [] (by rfl),
   (findSessionByIdPrefix_resolution [mkRow "abc111", mkRow "abc222"]
      "abc1").2.1 (mkRow "abc111") (by rfl),
   (findSessionByIdPrefix_resolution [mkRow "abc111", mkRow "abc222"]
      "zzz").1 (by rfl)⟩

/-! ## Claim theorems: list sorting -/

/-- A session with no recorded creation time. -/
def sessionNoCreated : SMeta := { session_id := "cursor:aaa" }

/-- A session created at time 5. -/
def sessionCreated5 : SMeta :=
  { session_id := "cursor:bbb", created_at := some 5 }

/-- C6 counterexample.  Under `sortBy: 'oldest'` a session with no
recorded creation time is ordered after — not before — a session that
has one: the comparator returns `1` for a missing `created_at` under
both time orders, pushing such sessions to the end. -/
theorem sortAndLimit_oldest_missing_created_sorts_last :
    sortAndLimit [sessionNoCreated, sessionCreated5] SortBy.oldest none =
      [sessionCreated5, sessionNoCreated] ∧
    sessionNoCreated.created_at = none ∧
    sessionCreated5.created_at = some 5 := by
  exact ⟨by decide, rfl, rfl⟩

lemma cmpNewest_total (a b : SMeta) :
    cmpNewest a b ≤ 0 ∨ cmpNewest b a ≤ 0 := by
  by_cases ha : tsFalsy a.created_at = true <;>
    by_cases hb : tsFalsy b.created_at = true <;>
      simp [cmpNewest, ha, hb] <;> omega

lemma cmpNewest_trans (a b c : SMeta) (h1 : cmpNewest a b ≤ 0)
    (h2 : cmpNewest b c ≤ 0) : cmpNewest a c ≤ 0 := by
  by_cases ha : tsFalsy a.created_at = true <;>
    by_cases hb : tsFalsy b.created_at = true <;>
      by_cases hc : tsFalsy c.created_at = true <;>
        simp_all [cmpNewest] <;> omega

lemma cmpOldest_total (a b : SMeta) :
    cmpOldest a b ≤ 0 ∨ cmpOldest b a ≤ 0 := by
  by_cases ha : tsFalsy a.created_at = true <;>
    by_cases hb : tsFalsy b.created_at = true <;>
      simp [cmpOldest, ha, hb] <;> omega

lemma cmpOldest_trans (a b c : SMeta) (h1 : cmpOldest a b ≤ 0)
    (h2 : cmpOldest b c ≤ 0) : cmpOldest a c ≤ 0 := by
  by_cases ha : tsFalsy a.created_at = true <;>
    by_cases hb : tsFalsy b.created_at = true <;>
      by_cases hc : tsFalsy c.created_at = true <;>
        simp_all [cmpOldest] <;> omega

lemma pairwise_limit {r : SMeta → SMeta → Prop} {l : List SMeta}
    (h : List.Pairwise r l) (limit : Option Nat) :
    List.Pairwise r
      (match limit with
       | some n => if n = 0 then l else l.take n
       | none => l) := by
  cases limit with
  | none => exact h
  | some n =>
    show List.Pairwise r (if n = 0 then l else l.take n)
    by_cases hn : n = 0
    · simpa [hn] using h
    · rw [if_neg hn]
      exact List.Pairwise.sublist (List.take_sublist n l) h

/-- C6 (amended).  In the list operation, a session with no recorded
creation time sorts LAST under both time orders: with `sortBy: 'newest'`
it is ordered after every session with a creation time (i.e. as the
oldest), and with `sortBy: 'oldest'` it is likewise ordered after every
session with a creation time (i.e. as the newest) — the comparator
returns `1` for a missing `created_at` in both orders.  A session with
no message count sorts as count zero under `sortBy: 'most_messages'`. -/
theorem sortAndLimit_missing_fields (sessions : List SMeta)
    (limit : Option Nat) :
    List.Pairwise
      (fun a b => tsFalsy a.created_at = true → tsFalsy b.created_at = true)
      (sortAndLimit sessions SortBy.newest limit) ∧
    List.Pairwise
      (fun a b => tsFalsy a.created_at = true → tsFalsy b.created_at = true)
      (sortAndLimit sessions SortBy.oldest limit) ∧
    List.Pairwise
      (fun a b => b.message_count.getD 0 ≤ a.message_count.getD 0)
      (sortAndLimit sessions SortBy.most_messages limit) := by
  refine ⟨?_, ?_, ?_⟩
  · have hs : List.Pairwise (fun a b : SMeta => cmpNewest a b ≤ 0)
        (sessions.insertionSort fun a b => cmpNewest a b ≤ 0) := by
      haveI : IsTotal SMeta (fun a b => cmpNewest a b ≤ 0) :=
        ⟨cmpNewest_total⟩
      haveI : IsTrans SMeta (fun a b => cmpNewest a b ≤ 0) :=
        ⟨cmpNewest_trans⟩
      exact List.sorted_insertionSort _ sessions
    refine pairwise_limit (hs.imp ?_) limit
    intro a b hab hfa
    by_cases hfb : tsFalsy b.created_at = true
    · exact hfb
    · exfalso
      rw [show cmpNewest a b = 1 by simp [cmpNewest, hfa, hfb]] at hab
      omega
  · have hs : List.Pairwise (fun a b : SMeta => cmpOldest a b ≤ 0)
        (sessions.insertionSort fun a b => cmpOldest a b ≤ 0) := by
      haveI : IsTotal SMeta (fun a b => cmpOldest a b ≤ 0) :=
        ⟨cmpOldest_total⟩
      haveI : IsTrans SMeta (fun a b => cmpOldest a b ≤ 0) :=
        ⟨cmpOldest_trans⟩
      exact List.sorted_insertionSort _ sessions
    refine pairwise_limit (hs.imp ?_) limit
    intro a b hab hfa
    by_cases hfb : tsFalsy b.created_at = true
    · exact hfb
    · exfalso
      rw [show cmpOldest a b = 1 by simp [cmpOldest, hfa, hfb]] at hab
      omega
  · have hs : List.Pairwise (fun a b : SMeta => cmpMostMessages a b ≤ 0)
        (sessions.insertionSort fun a b => cmpMostMessages a b ≤ 0) := by
      haveI : IsTotal SMeta (fun a b => cmpMostMessages a b ≤ 0) :=
        ⟨fun a b => by simp [cmpMostMessages]; omega⟩
      haveI : IsTrans SMeta (fun a b => cmpMostMessages a b ≤ 0) :=
        ⟨fun a b c h1 h2 => by
          simp [cmpMostMessages] at h1 h2 ⊢
          omega⟩
      exact List.sorted_insertionSort _ sessions
    refine pairwise_limit (hs.imp ?_) limit
    intro a b hab
    simp [cmpMostMessages] at hab
    omega

/-! ## Claim theorems: nickname uniqueness -/

/-- C4.  Setting a nickname that another record already holds fails with
the nickname-conflict failure before any write — the store is left
untouched (an `Except.error` result carries no successor state, so both
the target record and the holder's record are unchanged) — while
re-setting the same nickname on the very session that holds it succeeds
and rewrites only that session's nickname column. -/
theorem setNickname_conflict_and_reset (st : MetaState)
    (target nickname : String) (now : Nat) (m : SMeta)
    (hfind : getSessionByNickname st nickname = some m) :
    (target ≠ m.session_id →
      setNickname st target nickname now =
        Except.error (CCtxError.nicknameConflict nickname m.session_id)) ∧
    (setNickname st m.session_id nickname now =
      Except.ok
        (st.map (fun r =>
          if r.session_id = m.session_id then
            { r with nickname := some nickname }
          else r))) := by
  constructor
  · intro hne
    have hne' : m.session_id ≠ target := fun e => hne e.symm
    simp only [setNickname, hfind]
    rw [if_pos hne']
  · simp only [setNickname, hfind]
    rw [if_neg (by simp)]
    have hsome : (lookupRow st m.session_id).isSome = true := by
      unfold getSessionByNickname at hfind
      rcases Option.map_eq_some'.mp hfind with ⟨r0, hr0, hmeta⟩
      have hr0mem : r0 ∈ st := List.mem_of_find?_eq_some hr0
      have hid : r0.session_id = m.session_id := by
        rw [← hmeta]
        rfl
      unfold lookupRow
      rw [List.find?_isSome]
      exact ⟨r0, hr0mem, by simp [hid]⟩
    simp only [setNickname.setNicknameWrite]
    rw [if_pos hsome]

/-- Witness for `setNickname_conflict_and_reset`: with `"foo"` held by
session A, setting `"foo"` on session B fails with the conflict failure,
and re-setting `"foo"` on A succeeds. -/
theorem setNickname_conflict_and_reset_witness :
    (setNickname
        [{ mkRow "cursor:aaa" with nickname := some "foo" },
         mkRow "cursor:bbb"] "cursor:bbb" "foo" 7 =
      Except.error (CCtxError.nicknameConflict "foo" "cursor:aaa")) ∧
    (setNickname
        [{ mkRow "cursor:aaa" with nickname := some "foo" },
         mkRow "cursor:bbb"] "cursor:aaa" "foo" 7 =
      Except.ok
        [{ mkRow "cursor:aaa" with nickname := some "foo" },
         mkRow "cursor:bbb"]) := by
  have h := setNickname_conflict_and_reset
    [{ mkRow "cursor:aaa" with nickname := some "foo" }, mkRow "cursor:bbb"]
    "cursor:bbb" "foo" 7
    (rowToMetadata { mkRow "cursor:aaa" with nickname := some "foo" })
    (by rfl)
  exact ⟨h.1 (by decide), h.2.trans rfl⟩

/-! ## Claim theorems: bare-id resolution -/

/-- C8.  When the facade `setNickname` or `addTag` receives a bare
session id (no source prefix), both Source Readers are probed: if both
recognize the id the operation fails with the distinct
exists-in-both-sources failure before any write; if neither recognizes
it, it fails with the typed session-not-found failure; if exactly one
recognizes it, the operation proceeds against that source's composite
id. -/
theorem bareId_two_probe_resolution (csrc : CursorSource)
    (clsrc : ClaudeSource) (autoSync : Bool) (now : Nat) (st : MetaState)
    (sessionId nickname tag : String)
    (hbare : strHasChar sessionId ':' = false) :
    ((getComposerData csrc sessionId).isSome = true →
      claudeGetSessionMessages clsrc sessionId ≠ [] →
      apiSetNickname csrc clsrc autoSync now st sessionId nickname =
          Except.error (CCtxError.existsInBothSources sessionId) ∧
        apiAddTag csrc clsrc autoSync now st sessionId tag =
          Except.error (CCtxError.existsInBothSources sessionId)) ∧
    (getComposerData csrc sessionId = none →
      claudeGetSessionMessages clsrc sessionId = [] →
      apiSetNickname csrc clsrc autoSync now st sessionId nickname =
          Except.error (CCtxError.sessionNotFound sessionId) ∧
        apiAddTag csrc clsrc autoSync now st sessionId tag =
          Except.error (CCtxError.sessionNotFound sessionId)) ∧
    ((getComposerData csrc sessionId).isSome = true →
      claudeGetSessionMessages clsrc sessionId = [] →
      apiSetNickname csrc clsrc autoSync now st sessionId nickname =
          apiSetNicknameResolved csrc clsrc autoSync now st "cursor"
            sessionId ("cursor:" ++ sessionId) nickname ∧
        apiAddTag csrc clsrc autoSync now st sessionId tag =
          apiAddTagResolved csrc clsrc autoSync now st "cursor"
            sessionId ("cursor:" ++ sessionId) tag) ∧
    (getComposerData csrc sessionId = none →
      claudeGetSessionMessages clsrc sessionId ≠ [] →
      apiSetNickname csrc clsrc autoSync now st sessionId nickname =
          apiSetNicknameResolved csrc clsrc autoSync now st "claude"
            sessionId ("claude:" ++ sessionId) nickname ∧
        apiAddTag csrc clsrc autoSync now st sessionId tag =
          apiAddTagResolved csrc clsrc autoSync now st "claude"
            sessionId ("claude:" ++ sessionId) tag) := by
  have hbare' : ¬ strHasChar sessionId ':' = true := by
    rw [hbare]
    decide
  refine ⟨?_, ?_, ?_, ?_⟩
  · intro hcur hcl
    have hlen : (claudeGetSessionMessages clsrc sessionId).length > 0 :=
      List.length_pos.mpr hcl
    have hlen0 : ¬ (claudeGetSessionMessages clsrc sessionId).length = 0 := by
      omega
    have hno : ¬ ((claudeGetSessionMessages clsrc sessionId).length > 0 ∧
        (getComposerData csrc sessionId).isNone = true) := by
      intro h
      rw [Option.isNone_iff_eq_none] at h
      rw [h.2] at hcur
      exact absurd hcur (by decide)
    constructor
    · unfold apiSetNickname
      rw [if_neg hbare', if_neg (fun h => hlen0 h.2), if_neg hno,
        if_pos ⟨hcur, hlen⟩]
    · unfold apiAddTag
      rw [if_neg hbare', if_neg (fun h => hlen0 h.2), if_neg hno,
        if_pos ⟨hcur, hlen⟩]
  · intro hcur hcl
    have hcur' : ¬ (getComposerData csrc sessionId).isSome = true := by
      rw [hcur]
      decide
    have hlen : ¬ (claudeGetSessionMessages clsrc sessionId).length > 0 := by
      rw [hcl]
      decide
    constructor
    · unfold apiSetNickname
      rw [if_neg hbare', if_neg (fun h => hcur' h.1),
        if_neg (fun h => hlen h.1), if_neg (fun h => hcur' h.1)]
    · unfold apiAddTag
      rw [if_neg hbare', if_neg (fun h => hcur' h.1),
        if_neg (fun h => hlen h.1), if_neg (fun h => hcur' h.1)]
  · intro hcur hcl
    constructor
    · unfold apiSetNickname
      rw [if_neg hbare', if_pos ⟨hcur, by rw [hcl]; rfl⟩]
    · unfold apiAddTag
      rw [if_neg hbare', if_pos ⟨hcur, by rw [hcl]; rfl⟩]
  · intro hcur hcl
    have hcur' : ¬ (getComposerData csrc sessionId).isSome = true := by
      rw [hcur]
      decide
    have hlen : (claudeGetSessionMessages clsrc sessionId).length > 0 :=
      List.length_pos.mpr hcl
    have hnone : (getComposerData csrc sessionId).isNone = true := by
      rw [hcur]
      rfl
    constructor
    · unfold apiSetNickname
      rw [if_neg hbare', if_neg (fun h => hcur' h.1), if_pos ⟨hlen, hnone⟩]
    · unfold apiAddTag
      rw [if_neg hbare', if_neg (fun h => hcur' h.1), if_pos ⟨hlen, hnone⟩]

/-- A concrete Source-A store recognizing the bare id `"sess"`. -/
def wCursorSrc : CursorSource :=
  { composers := [{ composerId := "sess" }], bubbles := [] }

/-- A concrete Source-B store recognizing the bare id `"sess"`. -/
def wClaudeSrc : ClaudeSource :=
  { sessions := [("sess",
      [{ ty := "user", uuid := "u", timestamp := "t", timestampMs := 1,
         cwd := "/a", sessionId := "sess",
         content := ClaudeContent.str "hello" }])] }

/-- An empty Source-A store. -/
def wCursorSrcEmpty : CursorSource := { composers := [], bubbles := [] }

/-- An empty Source-B store. -/
def wClaudeSrcEmpty : ClaudeSource := { sessions := [] }

/-- Witness for `bareId_two_probe_resolution` at the bare id `"sess"`
against concrete stores realizing all four probe outcomes. -/
theorem bareId_two_probe_resolution_witness :
    (apiSetNickname wCursorSrc wClaudeSrc true 9 [] "sess" "nick" =
        Except.error (CCtxError.existsInBothSources "sess") ∧
      apiAddTag wCursorSrc wClaudeSrc true 9 [] "sess" "tg" =
        Except.error (CCtxError.existsInBothSources "sess")) ∧
    (apiSetNickname wCursorSrcEmpty wClaudeSrcEmpty true 9 [] "sess"
          "nick" = Except.error (CCtxError.sessionNotFound "sess") ∧
      apiAddTag wCursorSrcEmpty wClaudeSrcEmpty true 9 [] "sess" "tg" =
        Except.error (CCtxError.sessionNotFound "sess")) ∧
    (apiSetNickname wCursorSrc wClaudeSrcEmpty true 9 [] "sess" "nick" =
        apiSetNicknameResolved wCursorSrc wClaudeSrcEmpty true 9 []
          "cursor" "sess" ("cursor:" ++ "sess") "nick") ∧
    (apiSetNickname wCursorSrcEmpty wClaudeSrc true 9 [] "sess" "nick" =
        apiSetNicknameResolved wCursorSrcEmpty wClaudeSrc true 9 []
          "claude" "sess" ("claude:" ++ "sess") "nick") :=
  ⟨(bareId_two_probe_resolution wCursorSrc wClaudeSrc true 9 [] "sess"
      "nick" "tg" (by rfl)).1 (by rfl)
      (by exact List.cons_ne_nil _ _),
   (bareId_two_probe_resolution wCursorSrcEmpty wClaudeSrcEmpty true 9 []
      "sess" "nick" "tg" (by rfl)).2.1 (by rfl) (by rfl),
   ((bareId_two_probe_resolution wCursorSrc wClaudeSrcEmpty true 9 []
      "sess" "nick" "tg" (by rfl)).2.2.1 (by rfl) (by rfl)).1,
   ((bareId_two_probe_resolution wCursorSrcEmpty wClaudeSrc true 9 []
      "sess" "nick" "tg" (by rfl)).2.2.2 (by rfl)
      (by exact List.cons_ne_nil _ _)).1⟩

/-! ## Sync-loop lemmas

The two bulk loops have identical structure; the lemmas below are proved
once over a generic per-session import function and then instantiated
for the Source-A and Source-B loops. -/

/-- One generic bulk-loop iteration (the common shape of
`cursorSyncStep` and `claudeSyncStep`). -/
def syncStepG (imp : String → Option SMeta) (pfx : String) (now : Nat)
    (acc : MetaState × Nat) (entry : String × Nat) : MetaState × Nat :=
  if needsSync acc.1 (pfx ++ entry.1) entry.2 then
    match imp entry.1 with
    | some m => (upsertSessionMetadata acc.1 m now, acc.2 + 1)
    | none => (acc.1, acc.2)
  else acc

/-- The synced-count contribution of one entry, as a function of the
state at the start of the pass. -/
def contribG (imp : String → Option SMeta) (pfx : String)
    (st : MetaState) (entry : String × Nat) : Nat :=
  if needsSync st (pfx ++ entry.1) entry.2 then
    if (imp entry.1).isSome then 1 else 0
  else 0

/-- The contribution of one entry of the Source-A bulk loop. -/
def cursorSyncContrib (src : CursorSource) (now : Nat) (st : MetaState)
    (entry : String × Nat) : Nat :=
  contribG (fun sid => importCursorSession src sid now) "cursor:" st entry

/-- The contribution of one entry of the Source-B bulk loop. -/
def claudeSyncContrib (src : ClaudeSource) (now : Nat) (st : MetaState)
    (entry : String × Nat) : Nat :=
  contribG (fun sid => importClaudeSession src sid now) "claude:" st entry

lemma cursorSyncStep_eq_G (src : CursorSource) (now : Nat) :
    cursorSyncStep src now =
      syncStepG (fun sid => importCursorSession src sid now) "cursor:"
        now := by
  funext acc entry
  cases entry with
  | mk sid ts =>
    unfold cursorSyncStep syncStepG syncCursorSession
    by_cases hn : needsSync acc.1 ("cursor:" ++ sid) ts
    · cases h : importCursorSession src sid now <;> simp [hn, h]
    · simp [hn]

lemma claudeSyncStep_eq_G (src : ClaudeSource) (now : Nat) :
    claudeSyncStep src now =
      syncStepG (fun sid => importClaudeSession src sid now) "claude:"
        now := by
  funext acc entry
  cases entry with
  | mk sid ts =>
    unfold claudeSyncStep syncStepG syncClaudeSession
    by_cases hn : needsSync acc.1 ("claude:" ++ sid) ts
    · cases h : importClaudeSession src sid now <;> simp [hn, h]
    · simp [hn]

lemma syncCursorSessions_eq_G (src : CursorSource)
    (tss : List (String × Nat)) (now : Nat) (st : MetaState) :
    syncCursorSessions src tss now st =
      tss.foldl
        (syncStepG (fun sid => importCursorSession src sid now) "cursor:"
          now) (st, 0) := by
  unfold syncCursorSessions
  rw [cursorSyncStep_eq_G]

lemma syncClaudeSessions_eq_G (src : ClaudeSource)
    (tss : List (String × Nat)) (now : Nat) (st : MetaState) :
    syncClaudeSessions src tss now st =
      tss.foldl
        (syncStepG (fun sid => importClaudeSession src sid now) "claude:"
          now) (st, 0) := by
  unfold syncClaudeSessions
  rw [claudeSyncStep_eq_G]

lemma prefixed_id_inj {pfx a b : String} (h : pfx ++ a = pfx ++ b) :
    a = b := by
  have hd : (pfx ++ a).data = (pfx ++ b).data := by rw [h]
  rw [String.data_append, String.data_append] at hd
  have := List.append_cancel_left hd
  cases a
  cases b
  exact congrArg String.mk this

lemma lookupRow_upsertList_ne (st : MetaState) (newRow : MetaRow)
    (k : String) (h : k ≠ newRow.session_id) :
    lookupRow (upsertList st newRow) k = lookupRow st k := by
  induction st with
  | nil =>
    unfold upsertList lookupRow
    rw [List.find?_cons]
    have h1 : ¬ newRow.session_id = k := fun e => h e.symm
    simp [h1]
  | cons r rs ih =>
    unfold upsertList
    by_cases hr : r.session_id = newRow.session_id
    · rw [if_pos hr]
      unfold lookupRow
      rw [List.find?_cons, List.find?_cons]
      have h1 : ¬ newRow.session_id = k := fun e => h e.symm
      have h2 : ¬ r.session_id = k := fun e => h1 (hr ▸ e)
      simp [h1, h2]
    · rw [if_neg hr]
      unfold lookupRow at ih ⊢
      rw [List.find?_cons, List.find?_cons]
      by_cases h2 : r.session_id = k
      · simp [h2]
      · rw [decide_eq_false h2]
        exact ih

lemma lookupRow_upsertList_self (st : MetaState) (newRow : MetaRow) :
    lookupRow (upsertList st newRow) newRow.session_id =
      some
        (match lookupRow st newRow.session_id with
         | some r0 => { newRow with created_at := r0.created_at }
         | none => newRow) := by
  induction st with
  | nil => simp [upsertList, lookupRow]
  | cons r rs ih =>
    unfold upsertList
    by_cases hr : r.session_id = newRow.session_id
    · rw [if_pos hr]
      unfold lookupRow
      rw [List.find?_cons, List.find?_cons]
      simp [hr]
    · rw [if_neg hr]
      unfold lookupRow at ih ⊢
      rw [List.find?_cons, List.find?_cons]
      rw [decide_eq_false hr]
      exact ih

lemma importCursorSession_session_id (src : CursorSource) (sid : String)
    (now : Nat) (m : SMeta) (h : importCursorSession src sid now = some m) :
    m.session_id = "cursor:" ++ sid := by
  unfold importCursorSession at h
  split at h
  · simp at h
  · split at h
    · simp at h
    · simp only [Option.some.injEq] at h
      rw [← h]

lemma importCursorSession_last_synced (src : CursorSource) (sid : String)
    (now : Nat) (m : SMeta) (h : importCursorSession src sid now = some m) :
    m.last_synced_at = some now := by
  unfold importCursorSession at h
  split at h
  · simp at h
  · split at h
    · simp at h
    · simp only [Option.some.injEq] at h
      rw [← h]

lemma importCursorSession_isSome_now (src : CursorSource) (sid : String)
    (n1 n2 : Nat) :
    (importCursorSession src sid n1).isSome =
      (importCursorSession src sid n2).isSome := by
  unfold importCursorSession
  cases hc : getComposerData src sid with
  | none => rfl
  | some cd =>
    simp only
    by_cases he : isEmptySession cd = true
    · rw [if_pos he, if_pos he]
    · rw [if_neg he, if_neg he]
      rfl

lemma importClaudeSession_session_id (src : ClaudeSource) (sid : String)
    (now : Nat) (m : SMeta) (h : importClaudeSession src sid now = some m) :
    m.session_id = "claude:" ++ sid := by
  simp only [importClaudeSession] at h
  by_cases he : (claudeGetSessionMessages src sid).isEmpty = true
  · rw [if_pos he] at h
    exact absurd h (by simp)
  · rw [if_neg he] at h
    simp only [Option.some.injEq] at h
    rw [← h]

lemma importClaudeSession_last_synced (src : ClaudeSource) (sid : String)
    (now : Nat) (m : SMeta) (h : importClaudeSession src sid now = some m) :
    m.last_synced_at = some now := by
  simp only [importClaudeSession] at h
  by_cases he : (claudeGetSessionMessages src sid).isEmpty = true
  · rw [if_pos he] at h
    exact absurd h (by simp)
  · rw [if_neg he] at h
    simp only [Option.some.injEq] at h
    rw [← h]

lemma importClaudeSession_isSome_now (src : ClaudeSource) (sid : String)
    (n1 n2 : Nat) :
    (importClaudeSession src sid n1).isSome =
      (importClaudeSession src sid n2).isSome := by
  simp only [importClaudeSession]
  by_cases he : (claudeGetSessionMessages src sid).isEmpty = true
  · rw [if_pos he, if_pos he]
  · rw [if_neg he, if_neg he]
    rfl

lemma needsSync_congr {st1 st2 : MetaState} {k : String} {ts : Nat}
    (h : lookupRow st1 k = lookupRow st2 k) :
    needsSync st1 k ts = needsSync st2 k ts := by
  unfold needsSync getSessionMetadata
  rw [h]

lemma contribG_congr {imp : String → Option SMeta} {pfx : String}
    {st1 st2 : MetaState} {e : String × Nat}
    (h : lookupRow st1 (pfx ++ e.1) = lookupRow st2 (pfx ++ e.1)) :
    contribG imp pfx st1 e = contribG imp pfx st2 e := by
  unfold contribG
  rw [needsSync_congr h]

lemma syncStepG_state_lookup {imp : String → Option SMeta} {pfx : String}
    {now : Nat}
    (himpid : ∀ sid m, imp sid = some m → m.session_id = pfx ++ sid)
    (acc : MetaState × Nat) (e : String × Nat) (k : String)
    (h : k ≠ pfx ++ e.1 ∨ imp e.1 = none) :
    lookupRow (syncStepG imp pfx now acc e).1 k = lookupRow acc.1 k := by
  unfold syncStepG
  by_cases hn : needsSync acc.1 (pfx ++ e.1) e.2
  · rw [if_pos hn]
    cases hi : imp e.1 with
    | none => rfl
    | some m =>
      rcases h with h | h
      · show lookupRow (upsertSessionMetadata acc.1 m now) k = _
        unfold upsertSessionMetadata
        refine lookupRow_upsertList_ne _ _ _ ?_
        show k ≠ (metaToRow m now).session_id
        show k ≠ m.session_id
        rw [himpid e.1 m hi]
        exact h
      · rw [h] at hi
        exact absurd hi (by simp)
  · rw [if_neg hn]

lemma syncLoopG_lookup_preserved {imp : String → Option SMeta}
    {pfx : String} {now : Nat}
    (himpid : ∀ sid m, imp sid = some m → m.session_id = pfx ++ sid)
    (k : String) :
    ∀ (tss : List (String × Nat)) (acc : MetaState × Nat),
      (∀ e ∈ tss, k ≠ pfx ++ e.1 ∨ imp e.1 = none) →
      lookupRow (tss.foldl (syncStepG imp pfx now) acc).1 k =
        lookupRow acc.1 k := by
  intro tss
  induction tss with
  | nil => intro acc _; rfl
  | cons e rest ih =>
    intro acc h
    rw [List.foldl_cons]
    rw [ih (syncStepG imp pfx now acc e)
      (fun e' he' => h e' (List.mem_cons_of_mem e he'))]
    exact syncStepG_state_lookup himpid acc e k (h e (List.mem_cons_self e rest))

lemma syncStepG_count (imp : String → Option SMeta) (pfx : String)
    (now : Nat) (st : MetaState) (n : Nat) (e : String × Nat) :
    (syncStepG imp pfx now (st, n) e).2 = n + contribG imp pfx st e := by
  unfold syncStepG contribG
  by_cases hn : needsSync st (pfx ++ e.1) e.2
  · rw [if_pos hn, if_pos hn]
    cases hi : imp e.1 <;> simp [hi]
  · rw [if_neg hn, if_neg hn]
    simp

lemma syncStepG_state (imp : String → Option SMeta) (pfx : String)
    (now : Nat) (st : MetaState) (n n' : Nat) (e : String × Nat) :
    (syncStepG imp pfx now (st, n) e).1 =
      (syncStepG imp pfx now (st, n') e).1 := by
  unfold syncStepG
  by_cases hn : needsSync st (pfx ++ e.1) e.2
  · rw [if_pos hn, if_pos hn]
    cases hi : imp e.1 <;> simp [hi]
  · rw [if_neg hn, if_neg hn]

lemma syncLoopG_count {imp : String → Option SMeta} {pfx : String}
    {now : Nat}
    (himpid : ∀ sid m, imp sid = some m → m.session_id = pfx ++ sid) :
    ∀ (tss : List (String × Nat)) (st : MetaState) (n : Nat),
      (tss.map Prod.fst).Nodup →
      (tss.foldl (syncStepG imp pfx now) (st, n)).2 =
        n + (tss.map (contribG imp pfx st)).sum := by
  intro tss
  induction tss with
  | nil => intro st n _; simp
  | cons e rest ih =>
    intro st n hnd
    rw [List.map_cons, List.nodup_cons] at hnd
    rw [List.foldl_cons, List.map_cons, List.sum_cons]
    rcases hstep : syncStepG imp pfx now (st, n) e with ⟨st1, n1⟩
    have hn1 : n1 = n + contribG imp pfx st e := by
      rw [← syncStepG_count imp pfx now st n e, hstep]
    have hrest : ∀ e' ∈ rest,
        contribG imp pfx st1 e' = contribG imp pfx st e' := by
      intro e' he'
      refine contribG_congr ?_
      have hne : pfx ++ e'.1 ≠ pfx ++ e.1 := by
        intro heq
        exact hnd.1 (prefixed_id_inj heq ▸ List.mem_map_of_mem Prod.fst he')
      have hlook := @syncStepG_state_lookup imp pfx now himpid (st, n) e
        (pfx ++ e'.1) (Or.inl hne)
      rw [hstep] at hlook
      exact hlook
    rw [ih st1 n1 hnd.2, List.map_congr_left hrest, hn1]
    omega

lemma syncStepG_lookup_self {imp : String → Option SMeta} {pfx : String}
    {now : Nat}
    (himpid : ∀ sid m, imp sid = some m → m.session_id = pfx ++ sid)
    (st : MetaState) (n : Nat) (e : String × Nat) :
    lookupRow (syncStepG imp pfx now (st, n) e).1 (pfx ++ e.1) =
      if needsSync st (pfx ++ e.1) e.2 then
        match imp e.1 with
        | some m =>
          some
            (match lookupRow st (pfx ++ e.1) with
             | some r0 => { metaToRow m now with created_at := r0.created_at }
             | none => metaToRow m now)
        | none => lookupRow st (pfx ++ e.1)
      else lookupRow st (pfx ++ e.1) := by
  unfold syncStepG
  by_cases hn : needsSync st (pfx ++ e.1) e.2
  · rw [if_pos hn, if_pos hn]
    cases hi : imp e.1 with
    | none => rfl
    | some m =>
      show lookupRow (upsertSessionMetadata st m now) (pfx ++ e.1) = _
      unfold upsertSessionMetadata
      have hid : (metaToRow m now).session_id = pfx ++ e.1 :=
        himpid e.1 m hi
      rw [← hid]
      exact lookupRow_upsertList_self st (metaToRow m now)
  · rw [if_neg hn, if_neg hn]

lemma syncLoopG_lookup_mem {imp : String → Option SMeta} {pfx : String}
    {now : Nat}
    (himpid : ∀ sid m, imp sid = some m → m.session_id = pfx ++ sid) :
    ∀ (tss : List (String × Nat)) (st : MetaState) (n : Nat)
      (e : String × Nat), (tss.map Prod.fst).Nodup → e ∈ tss →
      lookupRow (tss.foldl (syncStepG imp pfx now) (st, n)).1 (pfx ++ e.1) =
        if needsSync st (pfx ++ e.1) e.2 then
          match imp e.1 with
          | some m =>
            some
              (match lookupRow st (pfx ++ e.1) with
               | some r0 =>
                 { metaToRow m now with created_at := r0.created_at }
               | none => metaToRow m now)
          | none => lookupRow st (pfx ++ e.1)
        else lookupRow st (pfx ++ e.1) := by
  intro tss
  induction tss with
  | nil => intro st n e _ he; exact absurd he (by simp)
  | cons e0 rest ih =>
    intro st n e hnd he
    rw [List.map_cons, List.nodup_cons] at hnd
    rw [List.foldl_cons]
    rcases List.mem_cons.mp he with he0 | hrest
    · subst he0
      have hnotin : ∀ e' ∈ rest, (pfx ++ e.1) ≠ pfx ++ e'.1 ∨
          imp e'.1 = none := by
        intro e' he'
        refine Or.inl ?_
        intro heq
        exact hnd.1 (prefixed_id_inj heq ▸ List.mem_map_of_mem Prod.fst he')
      rw [syncLoopG_lookup_preserved himpid (pfx ++ e.1) rest _ hnotin]
      rcases hstep : syncStepG imp pfx now (st, n) e with ⟨st1, n1⟩
      have hself := @syncStepG_lookup_self imp pfx now himpid st n e
      rw [hstep] at hself
      exact hself
    · rcases hstep : syncStepG imp pfx now (st, n) e0 with ⟨st1, n1⟩
      have hne : pfx ++ e.1 ≠ pfx ++ e0.1 := by
        intro heq
        exact hnd.1 (prefixed_id_inj heq ▸ List.mem_map_of_mem Prod.fst hrest)
      have hpres : lookupRow st1 (pfx ++ e.1) = lookupRow st (pfx ++ e.1) := by
        have hlk := @syncStepG_state_lookup imp pfx now himpid (st, n) e0
          (pfx ++ e.1) (Or.inl hne)
        rw [hstep] at hlk
        exact hlk
      rw [ih st1 n1 e hnd.2 hrest, needsSync_congr hpres, hpres]

lemma syncStepG_noop (imp : String → Option SMeta) (pfx : String)
    (now : Nat) (acc : MetaState × Nat) (e : String × Nat)
    (h : needsSync acc.1 (pfx ++ e.1) e.2 = false ∨ imp e.1 = none) :
    syncStepG imp pfx now acc e = acc := by
  unfold syncStepG
  rcases h with h | h
  · rw [h]
    simp
  · by_cases hn : needsSync acc.1 (pfx ++ e.1) e.2
    · rw [if_pos hn, h]
    · rw [if_neg hn]

lemma syncLoopG_noop_of_all (imp : String → Option SMeta) (pfx : String)
    (now : Nat) :
    ∀ (tss : List (String × Nat)) (acc : MetaState × Nat),
      (∀ e ∈ tss, needsSync acc.1 (pfx ++ e.1) e.2 = false ∨
        imp e.1 = none) →
      tss.foldl (syncStepG imp pfx now) acc = acc := by
  intro tss
  induction tss with
  | nil => intro acc _; rfl
  | cons e rest ih =>
    intro acc h
    rw [List.foldl_cons,
      syncStepG_noop imp pfx now acc e (h e (List.mem_cons_self e rest))]
    exact ih acc (fun e' he' => h e' (List.mem_cons_of_mem e he'))

/-- The per-key staleness invariant: the stored record at key `k` has a
nonzero `last_synced_at` at or above the source timestamp `ts`, so the
staleness test skips the session. -/
def syncedKey (ts : Nat) (st : MetaState) (k : String) : Prop :=
  ∃ r, lookupRow st k = some r ∧ r.last_synced_at ≠ 0 ∧
    ts ≤ r.last_synced_at

lemma needsSync_false_of_syncedKey {ts : Nat} {st : MetaState} {k : String}
    (h : syncedKey ts st k) : needsSync st k ts = false := by
  rcases h with ⟨r, hr, hnz, hle⟩
  unfold needsSync getSessionMetadata
  rw [hr]
  show (match (rowToMetadata r).last_synced_at with
        | none => true
        | some lastSyncedAt => decide (ts > lastSyncedAt)) = false
  show (match natOrNone r.last_synced_at with
        | none => true
        | some lastSyncedAt => decide (ts > lastSyncedAt)) = false
  unfold natOrNone
  rw [if_neg hnz]
  simpa using hle

lemma syncedKey_of_needsSync_false {ts : Nat} {st : MetaState} {k : String}
    (h : needsSync st k ts = false) : syncedKey ts st k := by
  unfold needsSync getSessionMetadata at h
  cases hr : lookupRow st k with
  | none => rw [hr] at h; simp at h
  | some r =>
    rw [hr] at h
    refine ⟨r, hr, ?_⟩
    revert h
    show (match (rowToMetadata r).last_synced_at with
          | none => true
          | some lastSyncedAt => decide (ts > lastSyncedAt)) = false → _
    show (match natOrNone r.last_synced_at with
          | none => true
          | some lastSyncedAt => decide (ts > lastSyncedAt)) = false → _
    unfold natOrNone
    by_cases hz : r.last_synced_at = 0
    · rw [if_pos hz]
      intro h
      simp at h
    · rw [if_neg hz]
      intro h
      simp at h
      exact ⟨hz, by omega⟩

lemma metaToRow_last_synced (m : SMeta) (now : Nat)
    (h : m.last_synced_at = some now) :
    (metaToRow m now).last_synced_at = now := by
  show orNow m.last_synced_at now = now
  rw [h]
  simp [orNow]

lemma syncedKey_preserved_step {imp : String → Option SMeta} {pfx : String}
    {now : Nat}
    (himplsa : ∀ sid m, imp sid = some m → m.last_synced_at = some now)
    {ts : Nat} (hts : ts ≤ now) (hnow : now ≠ 0)
    (acc : MetaState × Nat) (e : String × Nat) (k : String)
    (h : syncedKey ts acc.1 k) :
    syncedKey ts (syncStepG imp pfx now acc e).1 k := by
  unfold syncStepG
  by_cases hn : needsSync acc.1 (pfx ++ e.1) e.2
  · rw [if_pos hn]
    cases hi : imp e.1 with
    | none => exact h
    | some m =>
      show syncedKey ts (upsertSessionMetadata acc.1 m now) k
      unfold upsertSessionMetadata
      by_cases hk : k = (metaToRow m now).session_id
      · subst hk
        rw [syncedKey]
        rw [lookupRow_upsertList_self acc.1 (metaToRow m now)]
        have hlsa : (metaToRow m now).last_synced_at = now :=
          metaToRow_last_synced m now (himplsa e.1 m hi)
        cases hl : lookupRow acc.1 (metaToRow m now).session_id with
        | none => exact ⟨metaToRow m now, rfl, by rw [hlsa]; exact hnow,
            by rw [hlsa]; exact hts⟩
        | some r0 =>
          refine ⟨{ metaToRow m now with created_at := r0.created_at },
            rfl, ?_, ?_⟩
          · show (metaToRow m now).last_synced_at ≠ 0
            rw [hlsa]
            exact hnow
          · show ts ≤ (metaToRow m now).last_synced_at
            rw [hlsa]
            exact hts
      · rw [syncedKey]
        rw [lookupRow_upsertList_ne acc.1 (metaToRow m now) k hk]
        exact h
  · rw [if_neg hn]
    exact h

lemma syncedKey_preserved_fold {imp : String → Option SMeta} {pfx : String}
    {now : Nat}
    (himplsa : ∀ sid m, imp sid = some m → m.last_synced_at = some now)
    {ts : Nat} (hts : ts ≤ now) (hnow : now ≠ 0) (k : String) :
    ∀ (tss : List (String × Nat)) (acc : MetaState × Nat),
      syncedKey ts acc.1 k →
      syncedKey ts (tss.foldl (syncStepG imp pfx now) acc).1 k := by
  intro tss
  induction tss with
  | nil => intro acc h; exact h
  | cons e rest ih =>
    intro acc h
    rw [List.foldl_cons]
    exact ih _ (syncedKey_preserved_step himplsa hts hnow acc e k h)

lemma syncedKey_established {imp : String → Option SMeta} {pfx : String}
    {now : Nat}
    (himpid : ∀ sid m, imp sid = some m → m.session_id = pfx ++ sid)
    (himplsa : ∀ sid m, imp sid = some m → m.last_synced_at = some now)
    (hnow : now ≠ 0) :
    ∀ (tss : List (String × Nat)) (acc : MetaState × Nat),
      (∀ e ∈ tss, e.2 ≤ now) →
      ∀ e ∈ tss, imp e.1 ≠ none →
        syncedKey e.2 (tss.foldl (syncStepG imp pfx now) acc).1
          (pfx ++ e.1) := by
  intro tss
  induction tss with
  | nil => intro acc _ e he; exact absurd he (by simp)
  | cons e0 rest ih =>
    intro acc hts e he himp
    rw [List.foldl_cons]
    rcases List.mem_cons.mp he with he0 | hrest
    · subst he0
      have hts0 : e.2 ≤ now := hts e (List.mem_cons_self e rest)
      have hkey : syncedKey e.2 (syncStepG imp pfx now acc e).1
          (pfx ++ e.1) := by
        unfold syncStepG
        by_cases hn : needsSync acc.1 (pfx ++ e.1) e.2
        · rw [if_pos hn]
          cases hi : imp e.1 with
          | none => exact absurd hi himp
          | some m =>
            show syncedKey e.2 (upsertSessionMetadata acc.1 m now)
              (pfx ++ e.1)
            unfold upsertSessionMetadata
            have hid : (metaToRow m now).session_id = pfx ++ e.1 :=
              himpid e.1 m hi
            have hlsa : (metaToRow m now).last_synced_at = now :=
              metaToRow_last_synced m now (himplsa e.1 m hi)
            rw [syncedKey, ← hid,
              lookupRow_upsertList_self acc.1 (metaToRow m now)]
            cases hl : lookupRow acc.1 (metaToRow m now).session_id with
            | none =>
              exact ⟨metaToRow m now, rfl, by rw [hlsa]; exact hnow,
                by rw [hlsa]; exact hts0⟩
            | some r0 =>
              refine ⟨{ metaToRow m now with created_at := r0.created_at },
                rfl, ?_, ?_⟩
              · show (metaToRow m now).last_synced_at ≠ 0
                rw [hlsa]
                exact hnow
              · show e.2 ≤ (metaToRow m now).last_synced_at
                rw [hlsa]
                exact hts0
        · rw [if_neg hn]
          exact syncedKey_of_needsSync_false (by simpa using hn)
      exact syncedKey_preserved_fold himplsa hts0 hnow (pfx ++ e.1) rest _
        hkey
    · exact ih _ (fun e' he' => hts e' (List.mem_cons_of_mem e0 he')) e
        hrest himp

lemma importCursorSession_none_of_empty (src : CursorSource) (sid : String)
    (now : Nat) (cd : ComposerData) (hcd : getComposerData src sid = some cd)
    (hempty : bubbleHeaders cd = []) :
    importCursorSession src sid now = none := by
  have he : isEmptySession cd = true := by
    unfold isEmptySession
    rw [hempty]
    rfl
  unfold importCursorSession
  rw [hcd]
  simp [he]

lemma importClaudeSession_none_of_empty (src : ClaudeSource) (sid : String)
    (now : Nat) (hempty : claudeGetSessionMessages src sid = []) :
    importClaudeSession src sid now = none := by
  have he : (claudeGetSessionMessages src sid).isEmpty = true := by
    rw [hempty]
    rfl
  simp only [importClaudeSession]
  rw [if_pos he]

/-- C1.  A source session with exactly zero messages is never imported:
the single-session imports return without touching the store, and a bulk
pass over any timestamp map leaves the store's row for that session's
composite id exactly as it was (in particular, it creates none). -/
theorem zeroMessage_session_never_imported
    (csrc : CursorSource) (clsrc : ClaudeSource) (cd : ComposerData)
    (sidC sidL : String) (now : Nat) (st : MetaState)
    (tssC tssL : List (String × Nat))
    (hcd : getComposerData csrc sidC = some cd)
    (hempty : bubbleHeaders cd = [])
    (hclaude : claudeGetSessionMessages clsrc sidL = []) :
    syncCursorSession csrc sidC now st = (st, none) ∧
    syncClaudeSession clsrc sidL now st = (st, none) ∧
    lookupRow (syncCursorSessions csrc tssC now st).1 ("cursor:" ++ sidC) =
      lookupRow st ("cursor:" ++ sidC) ∧
    lookupRow (syncClaudeSessions clsrc tssL now st).1 ("claude:" ++ sidL) =
      lookupRow st ("claude:" ++ sidL) := by
  have himpC : importCursorSession csrc sidC now = none :=
    importCursorSession_none_of_empty csrc sidC now cd hcd hempty
  have himpL : importClaudeSession clsrc sidL now = none :=
    importClaudeSession_none_of_empty clsrc sidL now hclaude
  refine ⟨?_, ?_, ?_, ?_⟩
  · unfold syncCursorSession
    rw [himpC]
  · unfold syncClaudeSession
    rw [himpL]
  · rw [syncCursorSessions_eq_G]
    refine syncLoopG_lookup_preserved
      (fun sid m h => importCursorSession_session_id csrc sid now m h)
      ("cursor:" ++ sidC) tssC (st, 0) ?_
    intro e _
    by_cases hid : e.1 = sidC
    · exact Or.inr (by rw [hid]; exact himpC)
    · exact Or.inl (fun h => hid (prefixed_id_inj h).symm)
  · rw [syncClaudeSessions_eq_G]
    refine syncLoopG_lookup_preserved
      (fun sid m h => importClaudeSession_session_id clsrc sid now m h)
      ("claude:" ++ sidL) tssL (st, 0) ?_
    intro e _
    by_cases hid : e.1 = sidL
    · exact Or.inr (by rw [hid]; exact himpL)
    · exact Or.inl (fun h => hid (prefixed_id_inj h).symm)

/-- A composer record with zero conversation headers. -/
def wEmptyComposer : ComposerData := { composerId := "e1" }

/-- Witness for `zeroMessage_session_never_imported`: a Source-A session
with zero headers and a Source-B session with zero JSONL messages, per
bulk passes that list both. -/
theorem zeroMessage_session_never_imported_witness :
    syncCursorSession { composers := [wEmptyComposer], bubbles := [] }
        "e1" 50 [] = ([], none) ∧
    syncClaudeSession wClaudeSrcEmpty "e2" 50 [] = ([], none) ∧
    lookupRow
        (syncCursorSessions { composers := [wEmptyComposer], bubbles := [] }
          [("e1", 5)] 50 []).1 ("cursor:" ++ "e1") =
      lookupRow [] ("cursor:" ++ "e1") ∧
    lookupRow (syncClaudeSessions wClaudeSrcEmpty [("e2", 5)] 50 []).1
        ("claude:" ++ "e2") =
      lookupRow [] ("claude:" ++ "e2") :=
  zeroMessage_session_never_imported
    { composers := [wEmptyComposer], bubbles := [] } wClaudeSrcEmpty
    wEmptyComposer "e1" "e2" 50 [] [("e1", 5)] [("e2", 5)]
    (by rfl) (by rfl) (by rfl)

lemma needsSync_of_row (st : MetaState) (k : String) (ts : Nat)
    (r : MetaRow) (hr : lookupRow st k = some r)
    (hnz : r.last_synced_at ≠ 0) :
    needsSync st k ts = decide (ts > r.last_synced_at) := by
  unfold needsSync getSessionMetadata
  rw [hr]
  show (match natOrNone r.last_synced_at with
        | none => true
        | some lastSyncedAt => decide (ts > lastSyncedAt)) = _
  unfold natOrNone
  rw [if_neg hnz]

/-- C2.  During a bulk sync pass over a timestamp map with (as a `Map`
guarantees) pairwise-distinct session ids: a session whose
source-reported timestamp is at or below its recorded nonzero
`last_synced_at` is skipped — its row is left byte-for-byte as it was
and it contributes 0 to the synced-count; a session whose source
timestamp is strictly greater is re-imported (when its import succeeds):
it contributes 1 and its row is rewritten from the fresh import.  The
returned synced-count is the sum of the per-session contributions. -/
theorem bulkSync_staleness (csrc : CursorSource) (clsrc : ClaudeSource)
    (tssC tssL : List (String × Nat)) (st : MetaState) (now : Nat)
    (eC eL : String × Nat) (rC rL : MetaRow)
    (hndC : (tssC.map Prod.fst).Nodup) (hmemC : eC ∈ tssC)
    (hrC : lookupRow st ("cursor:" ++ eC.1) = some rC)
    (hnzC : rC.last_synced_at ≠ 0)
    (hndL : (tssL.map Prod.fst).Nodup) (hmemL : eL ∈ tssL)
    (hrL : lookupRow st ("claude:" ++ eL.1) = some rL)
    (hnzL : rL.last_synced_at ≠ 0) :
    ((eC.2 ≤ rC.last_synced_at →
        lookupRow (syncCursorSessions csrc tssC now st).1
            ("cursor:" ++ eC.1) = some rC ∧
          cursorSyncContrib csrc now st eC = 0) ∧
      (rC.last_synced_at < eC.2 →
        ∀ m, importCursorSession csrc eC.1 now = some m →
          cursorSyncContrib csrc now st eC = 1 ∧
            lookupRow (syncCursorSessions csrc tssC now st).1
                ("cursor:" ++ eC.1) =
              some { metaToRow m now with created_at := rC.created_at }) ∧
      (syncCursorSessions csrc tssC now st).2 =
        (tssC.map (cursorSyncContrib csrc now st)).sum) ∧
    ((eL.2 ≤ rL.last_synced_at →
        lookupRow (syncClaudeSessions clsrc tssL now st).1
            ("claude:" ++ eL.1) = some rL ∧
          claudeSyncContrib clsrc now st eL = 0) ∧
      (rL.last_synced_at < eL.2 →
        ∀ m, importClaudeSession clsrc eL.1 now = some m →
          claudeSyncContrib clsrc now st eL = 1 ∧
            lookupRow (syncClaudeSessions clsrc tssL now st).1
                ("claude:" ++ eL.1) =
              some { metaToRow m now with created_at := rL.created_at }) ∧
      (syncClaudeSessions clsrc tssL now st).2 =
        (tssL.map (claudeSyncContrib clsrc now st)).sum) := by
  have himpidC : ∀ sid m,
      (fun sid => importCursorSession csrc sid now) sid = some m →
        m.session_id = "cursor:" ++ sid :=
    fun sid m h => importCursorSession_session_id csrc sid now m h
  have himpidL : ∀ sid m,
      (fun sid => importClaudeSession clsrc sid now) sid = some m →
        m.session_id = "claude:" ++ sid :=
    fun sid m h => importClaudeSession_session_id clsrc sid now m h
  have hlookC := @syncLoopG_lookup_mem
    (fun sid => importCursorSession csrc sid now) "cursor:" now himpidC
    tssC st 0 eC hndC hmemC
  have hlookL := @syncLoopG_lookup_mem
    (fun sid => importClaudeSession clsrc sid now) "claude:" now himpidL
    tssL st 0 eL hndL hmemL
  refine ⟨⟨?_, ?_, ?_⟩, ⟨?_, ?_, ?_⟩⟩
  · intro hle
    have hns : needsSync st ("cursor:" ++ eC.1) eC.2 = false := by
      rw [needsSync_of_row st _ eC.2 rC hrC hnzC]
      simpa using hle
    constructor
    · rw [syncCursorSessions_eq_G, hlookC, hns]
      simpa using hrC
    · unfold cursorSyncContrib contribG
      rw [hns]
      rfl
  · intro hlt m hm
    have hns : needsSync st ("cursor:" ++ eC.1) eC.2 = true := by
      rw [needsSync_of_row st _ eC.2 rC hrC hnzC]
      simpa using hlt
    constructor
    · unfold cursorSyncContrib contribG
      rw [hns]
      simp [hm]
    · rw [syncCursorSessions_eq_G, hlookC, hns]
      simp only [if_true]
      rw [hm, hrC]
  · rw [syncCursorSessions_eq_G]
    have h := @syncLoopG_count
      (fun sid => importCursorSession csrc sid now) "cursor:" now
      himpidC tssC st 0 hndC
    simpa using h
  · intro hle
    have hns : needsSync st ("claude:" ++ eL.1) eL.2 = false := by
      rw [needsSync_of_row st _ eL.2 rL hrL hnzL]
      simpa using hle
    constructor
    · rw [syncClaudeSessions_eq_G, hlookL, hns]
      simpa using hrL
    · unfold claudeSyncContrib contribG
      rw [hns]
      rfl
  · intro hlt m hm
    have hns : needsSync st ("claude:" ++ eL.1) eL.2 = true := by
      rw [needsSync_of_row st _ eL.2 rL hrL hnzL]
      simpa using hlt
    constructor
    · unfold claudeSyncContrib contribG
      rw [hns]
      simp [hm]
    · rw [syncClaudeSessions_eq_G, hlookL, hns]
      simp only [if_true]
      rw [hm, hrL]
  · rw [syncClaudeSessions_eq_G]
    have h := @syncLoopG_count
      (fun sid => importClaudeSession clsrc sid now) "claude:" now
      himpidL tssL st 0 hndL
    simpa using h

/-- A composer record with one conversation header. -/
def wComposerA : ComposerData :=
  { composerId := "a",
    fullConversationHeadersOnly := some [{ bubbleId := "b1" }] }

/-- A Source-A store holding `wComposerA` and its one bubble. -/
def wCursorSrcA : CursorSource :=
  { composers := [wComposerA],
    bubbles := [(("a", "b1"),
      { type := 1, bubbleId := "b1", text := some "hi" })] }

/-- The stored row for `cursor:a`, last synchronized at 10. -/
def wStaleRowC : MetaRow := { mkRow "cursor:a" with last_synced_at := 10 }

/-- The stored row for `claude:sess`, last synchronized at 10. -/
def wStaleRowL : MetaRow := { mkRow "claude:sess" with last_synced_at := 10 }

/-- A metadata state holding both stored rows. -/
def wStaleState : MetaState := [wStaleRowC, wStaleRowL]

/-- The metadata `importCursorSession wCursorSrcA "a" 100` produces. -/
def wFreshMeta : SMeta :=
  { session_id := "cursor:" ++ "a", last_synced_at := some 100,
    first_message_preview := some "hi", message_count := some 1 }

/-- Witness for `bulkSync_staleness`: session `"a"` with source timestamp
5 against recorded `last_synced_at` 10 is skipped and contributes 0
(likewise the Source-B session `"sess"`), while source timestamp 20
triggers a re-import contributing 1. -/
theorem bulkSync_staleness_witness :
    (lookupRow (syncCursorSessions wCursorSrcA [("a", 5)] 100
          wStaleState).1 ("cursor:" ++ "a") = some wStaleRowC ∧
      cursorSyncContrib wCursorSrcA 100 wStaleState ("a", 5) = 0) ∧
    (cursorSyncContrib wCursorSrcA 100 wStaleState ("a", 20) = 1 ∧
      lookupRow (syncCursorSessions wCursorSrcA [("a", 20)] 100
          wStaleState).1 ("cursor:" ++ "a") =
        some { metaToRow wFreshMeta 100 with
                 created_at := wStaleRowC.created_at }) ∧
    (lookupRow (syncClaudeSessions wClaudeSrc [("sess", 5)] 100
          wStaleState).1 ("claude:" ++ "sess") = some wStaleRowL ∧
      claudeSyncContrib wClaudeSrc 100 wStaleState ("sess", 5) = 0) :=
  ⟨((bulkSync_staleness wCursorSrcA wClaudeSrc [("a", 5)] [("sess", 5)]
      wStaleState 100 ("a", 5) ("sess", 5) wStaleRowC wStaleRowL
      (by decide) (by decide) (by rfl) (by decide)
      (by decide) (by decide) (by rfl) (by decide)).1).1 (by decide),
   ((bulkSync_staleness wCursorSrcA wClaudeSrc [("a", 20)] [("sess", 5)]
      wStaleState 100 ("a", 20) ("sess", 5) wStaleRowC wStaleRowL
      (by decide) (by decide) (by rfl) (by decide)
      (by decide) (by decide) (by rfl) (by decide)).1).2.1 (by decide)
      wFreshMeta (by rfl),
   ((bulkSync_staleness wCursorSrcA wClaudeSrc [("a", 5)] [("sess", 5)]
      wStaleState 100 ("a", 5) ("sess", 5) wStaleRowC wStaleRowL
      (by decide) (by decide) (by rfl) (by decide)
      (by decide) (by decide) (by rfl) (by decide)).2).1 (by decide)⟩

/-- C3.  Re-running the bulk sync when no source timestamp has advanced
is idempotent: with every source timestamp at or below the first run's
clock (and a nonzero clock, as `Date.now()` is), the second run leaves
the entire metadata state — every row, byte for byte — exactly as the
first run left it, and returns synced-count 0. -/
theorem bulkSync_idempotent (csrc : CursorSource)
    (tss : List (String × Nat)) (st : MetaState) (now1 now2 : Nat)
    (hts : ∀ e ∈ tss, e.2 ≤ now1) (hnow : now1 ≠ 0) :
    syncCursorSessions csrc tss now2
        (syncCursorSessions csrc tss now1 st).1 =
      ((syncCursorSessions csrc tss now1 st).1, 0) := by
  rw [syncCursorSessions_eq_G, syncCursorSessions_eq_G]
  refine syncLoopG_noop_of_all _ "cursor:" now2 tss _ ?_
  intro e he
  by_cases himp : importCursorSession csrc e.1 now2 = none
  · exact Or.inr himp
  · refine Or.inl ?_
    have h1 : importCursorSession csrc e.1 now1 ≠ none := by
      intro h
      have := importCursorSession_isSome_now csrc e.1 now1 now2
      rw [h] at this
      rcases ho : importCursorSession csrc e.1 now2 with _ | m
      · exact himp ho
      · rw [ho] at this
        simp at this
    refine needsSync_false_of_syncedKey ?_
    exact syncedKey_established
      (fun sid m h => importCursorSession_session_id csrc sid now1 m h)
      (fun sid m h => importCursorSession_last_synced csrc sid now1 m h)
      hnow tss (st, 0) hts e he h1

/-- Witness for `bulkSync_idempotent`: the one-session store of
`wCursorSrcA` with source timestamp 20, first run at clock 100, second
at clock 200. -/
theorem bulkSync_idempotent_witness :
    (∀ e ∈ [(("a" : String), 20)], e.2 ≤ 100) ∧
    syncCursorSessions wCursorSrcA [("a", 20)] 200
        (syncCursorSessions wCursorSrcA [("a", 20)] 100 []).1 =
      ((syncCursorSessions wCursorSrcA [("a", 20)] 100 []).1, 0) :=
  ⟨by decide,
   bulkSync_idempotent wCursorSrcA [("a", 20)] [] 100 200 (by decide)
     (by decide)⟩
